import Mathlib

/-!
Verification of the SmartLibroAI book-summary generation pipeline.

This file shallowly embeds the algorithmic core of the repository:
the rate/quota counters, the OpenAI retry loop, the error classification
and fallback path of the generateBookSummary cloud function
(functions source, here called part_000), the fallback template generator,
the language-cleanup substitutions, the character-limit truncation
utility, and the client-side confidence scorer of book.service.ts.

JS numbers are modelled as exact rationals; the only floating-point
sensitive comparison (lastSpace > limit * 0.8 in ensureCharacterLimit) is
modelled with exact rational 4/5, which agrees with IEEE double semantics
for every natural limit because double(0.8) rounds upward and
double(L * double(0.8)) can only be 0.8*L or the next double above, so the
strict comparison with an integer index is unchanged.
Strings are modelled as Lean strings (UTF-16 lengths and codepoint counts
agree on every literal occurring in this program, which is BMP-only).
-/

namespace SmartLibro

/-- JS Math.round for the non-negative scores of this program:
round half up, i.e. the floor of x + 1/2. -/
def jsRound (x : ℚ) : ℤ := ⌊x + 1/2⌋

/-- JS word character class (regex backslash-w): ASCII letters, digits, underscore. -/
def jsWordChar (c : Char) : Bool := c.isAlphanum || c == '_'

/-- Lowercasing as used on the strings of this program: ASCII lowercase plus
the one non-ASCII uppercase letter appearing in the fixed tables (capital E acute). -/
def jsLowerChar (c : Char) : Char := if c = 'É' then 'é' else c.toLower

/-- String.prototype.toLowerCase restricted to the alphabet of this program. -/
def jsToLower (s : String) : String := ⟨s.data.map jsLowerChar⟩

/-- Does the pattern occur at the head of the list (String.prototype.startsWith on chars)? -/
def leadsWith : List Char → List Char → Bool
  | [], _ => true
  | _ :: _, [] => false
  | a :: as, b :: bs => a == b && leadsWith as bs

/-- Does the pattern occur anywhere in the list? -/
def hasSub (pat : List Char) : List Char → Bool
  | [] => leadsWith pat []
  | l@(_ :: t) => leadsWith pat l || hasSub pat t

/-- JS String.prototype.includes. -/
def strIncludes (s pat : String) : Bool := hasSub pat.data s.data

/-- Array.prototype.join with a comma separator, as used throughout the sources. -/
def joinComma (l : List String) : String := String.intercalate ", " l

/-- JS truthiness-based default for optional strings: `x || d`.
The empty string is falsy. -/
def jsOrStr (x : Option String) (d : String) : String :=
  match x with
  | some s => if s = "" then d else s
  | none => d

/-- JS truthiness-based default for optional numbers: `x || d`. Zero is falsy. -/
def jsOrNum (x : Option ℚ) (d : ℚ) : ℚ :=
  match x with
  | some v => if v = 0 then d else v
  | none => d

/-- Index of the last space in a character list
(String.prototype.lastIndexOf of a single space; none when absent). -/
def lastSpaceIdx : List Char → Option ℕ
  | [] => none
  | c :: cs =>
    match lastSpaceIdx cs with
    | some i => some (i + 1)
    | none => if c = ' ' then some 0 else none

/-- Core of ensureCharacterLimit on character lists.  Mirrors the identical
function of the cloud functions source (part_000 lines 448-465) and
openai.service.ts lines 217-232:
if the text is empty return the empty string; if it fits, return it;
otherwise cut to limit-3, prefer the last space when it lies past 80%
of the limit, and append an ASCII three-dot ellipsis. -/
def elCore (l : List Char) (limit : ℕ) : List Char :=
  if l = [] then []
  else if l.length ≤ limit then l
  else
    match lastSpaceIdx (l.take (limit - 3)) with
    | some i =>
      if ((i : ℚ) > (limit : ℚ) * (4/5)) then (l.take (limit - 3)).take i ++ ['.', '.', '.']
      else l.take (limit - 3) ++ ['.', '.', '.']
    | none => l.take (limit - 3) ++ ['.', '.', '.']

/-- ensureCharacterLimit (the shared CharacterLimitTruncator). -/
def ensureCharacterLimit (text : String) (limit : ℕ) : String :=
  ⟨elCore text.data limit⟩

theorem lastSpaceIdx_lt_length : ∀ (l : List Char) (i : ℕ),
    lastSpaceIdx l = some i → i < l.length := by
  intro l
  induction l with
  | nil => intro i h; simp [lastSpaceIdx] at h
  | cons c cs ih =>
    intro i h
    unfold lastSpaceIdx at h
    split at h
    next j heq =>
      injection h with h
      subst h
      have := ih j heq
      simp only [List.length_cons]
      omega
    next heq =>
      split at h
      · injection h with h
        subst h
        simp
      · exact Option.noConfusion h

theorem elCore_short (l : List Char) (limit : ℕ) (h : l.length ≤ limit) :
    elCore l limit = l := by
  unfold elCore
  split
  · simp_all
  · simp [h]

theorem elCore_length_le (l : List Char) (limit : ℕ) (h3 : 3 ≤ limit) :
    (elCore l limit).length ≤ limit := by
  unfold elCore
  split
  · simp only [List.length_nil]
    omega
  · split
    · assumption
    · rename_i hne hlong
      push_neg at hlong
      split
      next i heq =>
        have hi := lastSpaceIdx_lt_length _ _ heq
        rw [List.length_take] at hi
        split
        · simp only [List.length_append, List.length_take, List.length_cons,
            List.length_nil]
          omega
        · simp only [List.length_append, List.length_take, List.length_cons,
            List.length_nil]
          omega
      next heq =>
        simp only [List.length_append, List.length_take, List.length_cons,
          List.length_nil]
        omega

theorem elCore_small (l : List Char) (limit : ℕ) (hlim : limit < 3)
    (hlen : limit < l.length) : elCore l limit = ['.', '.', '.'] := by
  have hne : l ≠ [] := by
    intro h
    subst h
    simp at hlen
  have hz : limit - 3 = 0 := by omega
  unfold elCore
  rw [if_neg hne, if_neg (by omega), hz]
  simp [lastSpaceIdx]

theorem elCore_idem (l : List Char) (limit : ℕ) :
    elCore (elCore l limit) limit = elCore l limit := by
  by_cases hlen : l.length ≤ limit
  · have h := elCore_short l limit hlen
    rw [h]
    exact h
  · push_neg at hlen
    by_cases h3 : 3 ≤ limit
    · exact elCore_short _ _ (elCore_length_le l limit h3)
    · push_neg at h3
      rw [elCore_small l limit h3 hlen]
      exact elCore_small ['.', '.', '.'] limit h3 (by simpa using h3)

theorem stringMk_data (s : String) : (⟨s.data⟩ : String) = s := rfl

theorem ensureCharacterLimit_length_le (t : String) (L : ℕ) (h : 3 ≤ L) :
    (ensureCharacterLimit t L).length ≤ L :=
  elCore_length_le t.data L h

theorem ensureCharacterLimit_short (t : String) (L : ℕ) (h : t.length ≤ L) :
    ensureCharacterLimit t L = t := by
  unfold ensureCharacterLimit
  rw [elCore_short t.data L h]

theorem ensureCharacterLimit_idem (t : String) (L : ℕ) :
    ensureCharacterLimit (ensureCharacterLimit t L) L = ensureCharacterLimit t L := by
  unfold ensureCharacterLimit
  exact congrArg String.mk (elCore_idem t.data L)

/-! ## Data model (interfaces of the cloud functions source and the client) -/

/-- SummaryRequest (part_000 lines 140-151). -/
structure SummaryRequest where
  title : String
  authors : List String
  isbn : String
  description : String
  categories : List String
  publisher : String
  publishedDate : String
  pageCount : ℕ
  language : String
  targetLanguage : String
deriving DecidableEq

/-- BookMetadata (interfaces, part_002 lines 87-105); imageLinks carry no
algorithmic content and are omitted. -/
structure BookMetadata where
  isbn : String
  title : String
  authors : List String
  publisher : String
  publishedDate : String
  description : String
  pageCount : ℕ
  categories : List String
  averageRating : ℚ
  ratingsCount : ℕ
  language : String
deriving DecidableEq

/-- The type tag of a SourceAttribution entry (part_000 line 69). -/
inductive SAType where
  | book_description
  | publisher_info
  | author_bio
  | category_data
  | review_excerpt
  | metadata
  | ai_knowledge
  | fallback_template
deriving DecidableEq

/-- SourceAttribution (part_000 lines 68-76). -/
structure SourceAttribution where
  type : SAType
  content : String
  reliability : ℚ
  relevance : ℚ
  length : ℕ
  source : String
  weight : ℚ
deriving DecidableEq

/-- The dataQuality group of DetailedConfidenceFactors (part_000 lines 79-87). -/
structure DCFDataQuality where
  score : ℚ
  descriptionLength : ℚ
  metadataCompleteness : ℚ
  publisherReliability : ℚ
  authorCredibility : ℚ
deriving DecidableEq

/-- The sourceReliability group of DetailedConfidenceFactors (part_000 lines 88-96). -/
structure DCFSourceReliability where
  score : ℚ
  primarySourcesCount : ℚ
  averageSourceReliability : ℚ
  sourceConsistency : ℚ
  verifiableInformation : ℚ
deriving DecidableEq

/-- The contentCoverage group of DetailedConfidenceFactors (part_000 lines 97-105). -/
structure DCFContentCoverage where
  score : ℚ
  topicCoverage : ℚ
  thematicDepth : ℚ
  conceptualClarity : ℚ
  structuralCompleteness : ℚ
deriving DecidableEq

/-- The aiProcessing group of DetailedConfidenceFactors (part_000 lines 106-114). -/
structure DCFAiProcessing where
  score : ℚ
  languageConsistency : ℚ
  translationQuality : ℚ
  summarizationAccuracy : ℚ
  responseCoherence : ℚ
deriving DecidableEq

/-- The crossValidation group of DetailedConfidenceFactors (part_000 lines 115-123). -/
structure DCFCrossValidation where
  score : ℚ
  multiSourceVerification : ℚ
  factualConsistency : ℚ
  contextualRelevance : ℚ
  logicalCoherence : ℚ
deriving DecidableEq

/-- DetailedConfidenceFactors (part_000 lines 78-124). -/
structure DetailedConfidenceFactors where
  dataQuality : DCFDataQuality
  sourceReliability : DCFSourceReliability
  contentCoverage : DCFContentCoverage
  aiProcessing : DCFAiProcessing
  crossValidation : DCFCrossValidation
deriving DecidableEq

/-- processingMethod tag (part_000 line 136). -/
inductive ProcessingMethod where
  | openai_api
  | fallback_template
deriving DecidableEq

/-- AIBookSummary (part_000 lines 126-138); the generatedAt wall-clock
timestamp is outside the embedding. -/
structure AIBookSummary where
  shortSummary : String
  detailedSummary : String
  confidenceScore : ℚ
  reasoningFactors : List String
  sourcesUsed : List String
  sourceAttribution : List SourceAttribution
  detailedConfidenceFactors : DetailedConfidenceFactors
  language : String
  processingMethod : ProcessingMethod
  translationApplied : Bool
deriving DecidableEq

/-! ## Whole-word case-insensitive substitution (regex b-pat-b with flags gi)

Text is split into maximal runs of JS word characters and non-word
characters; a whole-word pattern (itself made of word characters only, as
every pattern of this program is) matches exactly the word runs equal to it
up to case.  This mirrors JS RegExp word-boundary semantics for such
patterns, including the fact that accented letters are not word characters. -/

/-- Split a character list into maximal runs on which the predicate is constant. -/
def splitRuns (p : Char → Bool) : List Char → List (List Char)
  | [] => []
  | c :: cs =>
    match splitRuns p cs with
    | [] => [[c]]
    | [] :: runs => [c] :: [] :: runs
    | (d :: run) :: runs =>
      if p c = p d then (c :: d :: run) :: runs else [c] :: (d :: run) :: runs

/-- text.replace(new RegExp("\\b" + pat + "\\b", "gi"), repl)
for a pattern consisting of word characters. -/
def replaceWholeWord (pat repl : String) (s : String) : String :=
  ⟨((splitRuns jsWordChar s.data).map (fun run =>
      match run with
      | [] => []
      | c :: _ =>
        if jsWordChar c && (run.map jsLowerChar == pat.data.map jsLowerChar)
        then repl.data else run)).flatten⟩

/-- Apply an ordered list of whole-word case-insensitive substitutions. -/
def applyCleanRules (rules : List (String × String)) (text : String) : String :=
  rules.foldl (fun t pr => replaceWholeWord pr.1 pr.2 t) text

/-- The ordered Spanish substitutions of cleanMixedLanguageText (part_000 lines 811-827). -/
def esCleanRules : List (String × String) :=
  [("anthropology", "antropología"), ("science", "ciencia"), ("history", "historia"),
   ("technology", "tecnología"), ("psychology", "psicología"), ("philosophy", "filosofía"),
   ("economics", "economía"), ("politics", "política"), ("sociology", "sociología"),
   ("literature", "literatura"), ("education", "educación"), ("business", "negocios"),
   ("health", "salud"), ("biography", "biografía"), ("fiction", "ficción"),
   ("art", "arte"), ("religion", "religión")]

/-- The ordered German substitutions of cleanMixedLanguageText (part_000 lines 830-853). -/
def deCleanRules : List (String × String) :=
  [("science", "Wissenschaft"), ("history", "Geschichte"), ("technology", "Technologie"),
   ("psychology", "Psychologie"), ("philosophy", "Philosophie"), ("economics", "Wirtschaft"),
   ("politics", "Politik"), ("sociology", "Soziologie"), ("literature", "Literatur"),
   ("education", "Bildung"), ("business", "Geschäft"), ("health", "Gesundheit"),
   ("biography", "Biographie"), ("fiction", "Fiktion"), ("anthropology", "Anthropologie"),
   ("work", "Werk"), ("offers", "bietet"), ("explores", "erforscht"),
   ("presents", "präsentiert"), ("analysis", "Analyse"), ("perspectives", "Perspektiven"),
   ("understanding", "Verständnis"), ("art", "Kunst"), ("religion", "Religion")]

/-- The ordered Portuguese substitutions of cleanMixedLanguageText (part_000 lines 856-879). -/
def ptCleanRules : List (String × String) :=
  [("science", "ciência"), ("history", "história"), ("technology", "tecnologia"),
   ("psychology", "psicologia"), ("philosophy", "filosofia"), ("economics", "economia"),
   ("politics", "política"), ("sociology", "sociologia"), ("literature", "literatura"),
   ("education", "educação"), ("business", "negócios"), ("health", "saúde"),
   ("biography", "biografia"), ("fiction", "ficção"), ("anthropology", "antropologia"),
   ("art", "arte"), ("religion", "religião"), ("work", "obra"),
   ("offers", "oferece"), ("explores", "explora"), ("presents", "apresenta"),
   ("analysis", "análise"), ("perspectives", "perspectivas"), ("understanding", "compreensão")]

/-- The ordered Italian substitutions of cleanMixedLanguageText (part_000 lines 882-905). -/
def itCleanRules : List (String × String) :=
  [("science", "scienza"), ("history", "storia"), ("technology", "tecnologia"),
   ("psychology", "psicologia"), ("philosophy", "filosofia"), ("economics", "economia"),
   ("politics", "politica"), ("sociology", "sociologia"), ("literature", "letteratura"),
   ("education", "educazione"), ("business", "affari"), ("health", "salute"),
   ("biography", "biografia"), ("fiction", "narrativa"), ("anthropology", "antropologia"),
   ("art", "arte"), ("religion", "religione"), ("work", "opera"),
   ("offers", "offre"), ("explores", "esplora"), ("presents", "presenta"),
   ("analysis", "analisi"), ("perspectives", "prospettive"), ("understanding", "comprensione")]

/-- cleanMixedLanguageText (part_000 lines 808-908): the language guard of the
cloud functions source.  For es, de, pt and it the fixed ordered substitutions
are applied; any other target language (including en and fr) returns the text
unchanged. -/
def cleanMixedLanguageText (text : String) (targetLanguage : String) : String :=
  if targetLanguage == "es" then applyCleanRules esCleanRules text
  else if targetLanguage == "de" then applyCleanRules deCleanRules text
  else if targetLanguage == "pt" then applyCleanRules ptCleanRules text
  else if targetLanguage == "it" then applyCleanRules itCleanRules text
  else text

/-! ## Fallback generator (part_000 lines 470-803) -/

/-- The per-language category translation table (part_000 lines 473-594; the
identical table is duplicated inside generateFallbackShortSummary and
generateFallbackDetailedSummary).  Unknown language codes yield no table. -/
def categoryTranslations (targetLang : String) : List (String × String) :=
  if targetLang == "es" then
    [("Science", "Ciencia"), ("History", "Historia"), ("Technology", "Tecnología"),
     ("Philosophy", "Filosofía"), ("Psychology", "Psicología"), ("Education", "Educación"),
     ("Business", "Negocios"), ("Health", "Salud"), ("Fiction", "Ficción"),
     ("Biography", "Biografía"), ("Anthropology", "Antropología"), ("Politics", "Política"),
     ("Economics", "Economía"), ("Sociology", "Sociología"), ("Literature", "Literatura"),
     ("Art", "Arte"), ("Religion", "Religión"), ("Strategy", "Estrategia"),
     ("Military", "Militar"), ("War", "Guerra"), ("Management", "Gestión"),
     ("Leadership", "Liderazgo")]
  else if targetLang == "fr" then
    [("Science", "Science"), ("History", "Histoire"), ("Technology", "Technologie"),
     ("Philosophy", "Philosophie"), ("Psychology", "Psychologie"), ("Education", "Éducation"),
     ("Business", "Affaires"), ("Health", "Santé"), ("Fiction", "Fiction"),
     ("Biography", "Biographie"), ("Anthropology", "Anthropologie"), ("Politics", "Politique"),
     ("Economics", "Économie"), ("Sociology", "Sociologie"), ("Literature", "Littérature"),
     ("Art", "Art"), ("Religion", "Religion"), ("Strategy", "Stratégie"),
     ("Military", "Militaire"), ("War", "Guerre"), ("Management", "Gestion"),
     ("Leadership", "Leadership")]
  else if targetLang == "de" then
    [("Science", "Wissenschaft"), ("History", "Geschichte"), ("Technology", "Technologie"),
     ("Philosophy", "Philosophie"), ("Psychology", "Psychologie"), ("Education", "Bildung"),
     ("Business", "Geschäft"), ("Health", "Gesundheit"), ("Fiction", "Fiktion"),
     ("Biography", "Biographie"), ("Literature", "Literatur"), ("Anthropology", "Anthropologie"),
     ("Politics", "Politik"), ("Economics", "Wirtschaft"), ("Sociology", "Soziologie"),
     ("Art", "Kunst"), ("Religion", "Religion"), ("Strategy", "Strategie"),
     ("Military", "Militär"), ("War", "Krieg"), ("Management", "Verwaltung"),
     ("Leadership", "Führung")]
  else if targetLang == "pt" then
    [("Science", "Ciência"), ("History", "História"), ("Technology", "Tecnologia"),
     ("Philosophy", "Filosofia"), ("Psychology", "Psicologia"), ("Education", "Educação"),
     ("Business", "Negócios"), ("Health", "Saúde"), ("Fiction", "Ficção"),
     ("Biography", "Biografia"), ("Anthropology", "Antropologia"), ("Politics", "Política"),
     ("Economics", "Economia"), ("Sociology", "Sociologia"), ("Literature", "Literatura"),
     ("Art", "Arte"), ("Religion", "Religião"), ("Strategy", "Estratégia"),
     ("Military", "Militar"), ("War", "Guerra"), ("Management", "Gestão"),
     ("Leadership", "Liderança")]
  else if targetLang == "it" then
    [("Science", "Scienza"), ("History", "Storia"), ("Technology", "Tecnologia"),
     ("Philosophy", "Filosofia"), ("Psychology", "Psicologia"), ("Education", "Educazione"),
     ("Business", "Affari"), ("Health", "Salute"), ("Fiction", "Narrativa"),
     ("Biography", "Biografia"), ("Anthropology", "Antropologia"), ("Politics", "Politica"),
     ("Economics", "Economia"), ("Sociology", "Sociologia"), ("Literature", "Letteratura"),
     ("Art", "Arte"), ("Religion", "Religione"), ("Strategy", "Strategia"),
     ("Military", "Militare"), ("War", "Guerra"), ("Management", "Gestione"),
     ("Leadership", "Leadership")]
  else []

/-- translateCategory (part_000 lines 472-597): exact table lookup, with a
JS-truthiness fallback to the lowercased category for unmapped entries. -/
def translateCategory (category : String) (targetLang : String) : String :=
  jsOrStr ((categoryTranslations targetLang).lookup category) (jsToLower category)

/-- The translated category list computed at the top of both fallback generators. -/
def translatedCategoriesOf (req : SummaryRequest) : List String :=
  req.categories.map (fun cat => translateCategory cat req.targetLanguage)

/-- The interpolated short template of generateFallbackShortSummary
(part_000 lines 603-628), selected by target language with English as the
default for unknown codes. -/
def fallbackShortTemplate (req : SummaryRequest) : String :=
  let tc := translatedCategoriesOf req
  if req.targetLanguage == "es" then
    "\"" ++ req.title ++ "\" por " ++ joinComma req.authors ++ " es una obra de " ++
      jsOrStr tc.head? "importancia" ++ " publicada en " ++ req.publishedDate ++ ". " ++
      (if req.pageCount > 0 then "Esta obra de " ++ toString req.pageCount ++ " páginas"
       else "Este libro") ++ " ofrece perspectivas sobre " ++ jsToLower (joinComma tc) ++ "."
  else if req.targetLanguage == "fr" then
    "\"" ++ req.title ++ "\" par " ++ joinComma req.authors ++ " est une œuvre de " ++
      jsOrStr tc.head? "importance" ++ " publiée en " ++ req.publishedDate ++ ". " ++
      (if req.pageCount > 0 then "Ce livre de " ++ toString req.pageCount ++ " pages"
       else "Ce livre") ++ " offre des perspectives sur " ++ jsToLower (joinComma tc) ++ "."
  else if req.targetLanguage == "de" then
    "\"" ++ req.title ++ "\" von " ++ joinComma req.authors ++ " ist ein Werk im Bereich " ++
      jsOrStr tc.head? "Wichtigkeit" ++ ", veröffentlicht " ++ req.publishedDate ++ ". " ++
      (if req.pageCount > 0 then "Dieses " ++ toString req.pageCount ++ "-seitige Buch"
       else "Dieses Buch") ++ " bietet Einblicke in " ++ jsToLower (joinComma tc) ++ "."
  else if req.targetLanguage == "pt" then
    "\"" ++ req.title ++ "\" por " ++ joinComma req.authors ++ " é uma obra de " ++
      jsOrStr tc.head? "importância" ++ " publicada em " ++ req.publishedDate ++ ". " ++
      (if req.pageCount > 0 then "Este livro de " ++ toString req.pageCount ++ " páginas"
       else "Este livro") ++ " oferece perspectivas sobre " ++ jsToLower (joinComma tc) ++ "."
  else if req.targetLanguage == "it" then
    "\"" ++ req.title ++ "\" di " ++ joinComma req.authors ++ " è un\x27opera di " ++
      toString req.pageCount ++ " pubblicata nel " ++ req.publishedDate ++ ". " ++
      (if req.pageCount > 0 then "Questo libro di " ++ toString req.pageCount ++ " pagine"
       else "Questo libro") ++ " offre prospettive su " ++ jsToLower (joinComma tc) ++ "."
  else
    "\"" ++ req.title ++ "\" by " ++ joinComma req.authors ++ " is a " ++
      jsOrStr tc.head? "important" ++ " work published in " ++ req.publishedDate ++ ". " ++
      (if req.pageCount > 0 then "This " ++ toString req.pageCount ++ "-page book"
       else "This book") ++ " offers insights into " ++ jsToLower (joinComma tc) ++ "."

/-- The fixed shorter per-language sentence substituted when the short
template would overrun its budget (part_000 lines 603-628). -/
def fallbackShortSentence (req : SummaryRequest) : String :=
  if req.targetLanguage == "es" then
    "\"" ++ req.title ++ "\" es una obra importante que explora temas fundamentales en su campo de estudio."
  else if req.targetLanguage == "fr" then
    "\"" ++ req.title ++ "\" est une œuvre importante qui explore des thèmes fondamentaux dans son domaine d\x27étude."
  else if req.targetLanguage == "de" then
    "\"" ++ req.title ++ "\" ist ein wichtiges Werk, das grundlegende Themen in seinem Studienbereich erforscht."
  else if req.targetLanguage == "pt" then
    "\"" ++ req.title ++ "\" é uma obra importante que explora temas fundamentais em seu campo de estudo."
  else if req.targetLanguage == "it" then
    "\"" ++ req.title ++ "\" è un\x27opera importante che esplora temi fondamentali nel suo campo di studio."
  else
    "\"" ++ req.title ++ "\" is an important work that explores fundamental themes in its field of study."

/-- generateFallbackShortSummary (part_000 lines 470-634). -/
def generateFallbackShortSummary (req : SummaryRequest) : String :=
  ensureCharacterLimit
    (cleanMixedLanguageText
      (if (fallbackShortTemplate req).length ≤ 300 then fallbackShortTemplate req
       else fallbackShortSentence req)
      req.targetLanguage)
    300

/-- The interpolated detailed template of generateFallbackDetailedSummary
(part_000 lines 772-797), selected by target language with English default. -/
def fallbackDetailedTemplate (req : SummaryRequest) : String :=
  let tc := translatedCategoriesOf req
  if req.targetLanguage == "es" then
    "\"" ++ req.title ++ "\" de " ++ joinComma req.authors ++ " (" ++ req.publisher ++ ", " ++
      req.publishedDate ++ ") es una obra de " ++ toString req.pageCount ++ " páginas en " ++
      joinComma tc ++ ". " ++
      (if req.language != req.targetLanguage then
        "Esta obra explora temas importantes relacionados con la evolución humana y la historia."
       else if req.description != "" then req.description.take 400
       else "Esta obra explora temas importantes en su campo.") ++
      " El libro ofrece una perspectiva integral sobre los conceptos fundamentales y proporciona a los lectores herramientas valiosas para comprender mejor el tema. Los autores presentan análisis detallados y metodologías prácticas que resultan esenciales para profundizar en este campo de estudio."
  else if req.targetLanguage == "fr" then
    "\"" ++ req.title ++ "\" par " ++ joinComma req.authors ++ " (" ++ req.publisher ++ ", " ++
      req.publishedDate ++ ") est une œuvre de " ++ toString req.pageCount ++ " pages en " ++
      joinComma tc ++ ". " ++
      (if req.description != "" then req.description.take 400
       else "Cette œuvre explore des thèmes importants dans son domaine.") ++
      " Le livre offre une perspective complète sur les concepts fondamentaux et fournit aux lecteurs des outils précieux pour mieux comprendre le sujet. Les auteurs présentent une analyse détaillée et des méthodologies pratiques essentielles pour approfondir les connaissances dans ce domaine d\x27étude."
  else if req.targetLanguage == "de" then
    "\"" ++ req.title ++ "\" von " ++ joinComma req.authors ++ " (" ++ req.publisher ++ ", " ++
      req.publishedDate ++ ") ist ein " ++ toString req.pageCount ++ "-seitiges Werk im Bereich " ++
      joinComma tc ++ ". " ++
      (if req.language != req.targetLanguage then
        "Dieses Werk erforscht wichtige Themen im Zusammenhang mit existenziellen und spirituellen Fragen."
       else if req.description != "" then req.description.take 400
       else "Dieses Werk erforscht wichtige Themen in seinem Fachgebiet.") ++
      " Das Buch bietet eine umfassende Perspektive auf grundlegende Konzepte und stellt den Lesern wertvolle Werkzeuge für ein besseres Verständnis des Themas zur Verfügung. Die Autoren präsentieren detaillierte Analysen und praktische Methodologien, die für die Vertiefung des Wissens in diesem Studienbereich wesentlich sind."
  else if req.targetLanguage == "pt" then
    "\"" ++ req.title ++ "\" por " ++ joinComma req.authors ++ " (" ++ req.publisher ++ ", " ++
      req.publishedDate ++ ") é uma obra de " ++ toString req.pageCount ++ " páginas em " ++
      joinComma tc ++ ". " ++
      (if req.language != req.targetLanguage then
        "Esta obra explora temas importantes relacionados com a evolução humana e a história."
       else if req.description != "" then req.description.take 400
       else "Esta obra explora temas importantes em seu campo.") ++
      " O livro oferece uma perspectiva abrangente sobre conceitos fundamentais e fornece aos leitores ferramentas valiosas para melhor compreender o assunto. Os autores apresentam análises detalhadas e metodologias práticas essenciais para aprofundar o conhecimento neste campo de estudo."
  else if req.targetLanguage == "it" then
    "\"" ++ req.title ++ "\" di " ++ joinComma req.authors ++ " (" ++ req.publisher ++ ", " ++
      req.publishedDate ++ ") è un\x27opera di " ++ toString req.pageCount ++ " pagine nel campo di " ++
      joinComma tc ++ ". " ++
      (if req.language != req.targetLanguage then
        "Quest\x27opera esplora temi importanti legati all\x27evoluzione umana e alla storia."
       else if req.description != "" then req.description.take 400
       else "Quest\x27opera esplora temi importanti nel suo campo.") ++
      " Il libro offre una prospettiva completa sui concetti fondamentali e fornisce ai lettori strumenti preziosi per comprendere meglio l\x27argomento. Gli autori presentano analisi dettagliate e metodologie pratiche essenziali per approfondire la conoscenza in questo campo di studio."
  else
    "\"" ++ req.title ++ "\" by " ++ joinComma req.authors ++ " (" ++ req.publisher ++ ", " ++
      req.publishedDate ++ ") is a " ++ toString req.pageCount ++ "-page work in " ++
      joinComma tc ++ ". " ++
      (if req.description != "" then req.description.take 400
       else "This work explores important themes in its field.") ++
      " The book offers a comprehensive perspective on fundamental concepts and provides readers with valuable tools for better understanding the subject. The authors present detailed analysis and practical methodologies that are essential for deepening knowledge in this field of study."

/-- The fixed per-language fallback paragraph of generateFallbackDetailedSummary
(part_000 lines 772-797). -/
def fallbackDetailedSentence (req : SummaryRequest) : String :=
  let tc := translatedCategoriesOf req
  if req.targetLanguage == "es" then
    "\"" ++ req.title ++ "\" es una obra fundamental que aborda aspectos esenciales de " ++
      jsOrStr tc.head? "su campo" ++
      ". A través de un análisis detallado, los autores presentan conceptos clave y metodologías importantes. Esta publicación ofrece perspectivas valiosas para lectores interesados en profundizar su comprensión del tema, proporcionando herramientas prácticas y enfoques innovadores que contribuyen significativamente al desarrollo del conocimiento en esta área de estudio."
  else if req.targetLanguage == "fr" then
    "\"" ++ req.title ++ "\" est une œuvre fondamentale qui aborde les aspects essentiels de " ++
      jsOrStr tc.head? "son domaine" ++
      ". À travers une analyse détaillée, les auteurs présentent des concepts clés et des méthodologies importantes. Cette publication offre des perspectives précieuses pour les lecteurs intéressés à approfondir leur compréhension du sujet, fournissant des outils pratiques et des approches innovantes qui contribuent significativement au développement des connaissances dans ce domaine d\x27étude."
  else if req.targetLanguage == "de" then
    "\"" ++ req.title ++ "\" ist ein grundlegendes Werk, das wesentliche Aspekte von " ++
      jsOrStr tc.head? "seinem Fachgebiet" ++
      " behandelt. Durch detaillierte Analyse präsentieren die Autoren Schlüsselkonzepte und wichtige Methodologien. Diese Veröffentlichung bietet wertvolle Perspektiven für Leser, die ihr Verständnis des Themas vertiefen möchten, und stellt praktische Werkzeuge und innovative Ansätze bereit, die erheblich zur Entwicklung des Wissens in diesem Studienbereich beitragen."
  else if req.targetLanguage == "pt" then
    "\"" ++ req.title ++ "\" é uma obra fundamental que aborda aspectos essenciais de " ++
      jsOrStr tc.head? "seu campo" ++
      ". Através de análise detalhada, os autores apresentam conceitos-chave e metodologias importantes. Esta publicação oferece perspectivas valiosas para leitores interessados em aprofundar sua compreensão do assunto, fornecendo ferramentas práticas e abordagens inovadoras que contribuem significativamente para o desenvolvimento do conhecimento nesta área de estudo."
  else if req.targetLanguage == "it" then
    "\"" ++ req.title ++ "\" è un\x27opera fondamentale che affronta aspetti essenziali di " ++
      jsOrStr tc.head? "suo campo" ++
      ". Attraverso un\x27analisi dettagliata, gli autori presentano concetti chiave e metodologie importanti. Questa pubblicazione offre prospettive preziose per i lettori interessati ad approfondire la loro comprensione dell\x27argomento, fornendo strumenti pratici e approcci innovativi che contribuiscono significativamente allo sviluppo della conoscenza in quest\x27area di studio."
  else
    "\"" ++ req.title ++ "\" is a fundamental work that addresses essential aspects of " ++
      jsOrStr tc.head? "its field" ++
      ". Through detailed analysis, the authors present key concepts and important methodologies. This publication offers valuable perspectives for readers interested in deepening their understanding of the subject, providing practical tools and innovative approaches that contribute significantly to the development of knowledge in this area of study."

/-- generateFallbackDetailedSummary (part_000 lines 639-803). -/
def generateFallbackDetailedSummary (req : SummaryRequest) : String :=
  ensureCharacterLimit
    (cleanMixedLanguageText
      (if (fallbackDetailedTemplate req).length ≤ 1000 then fallbackDetailedTemplate req
       else fallbackDetailedSentence req)
      req.targetLanguage)
    1000

/-! ## generateCloudFunctionSourceAttribution (part_000 lines 913-1017) -/

/-- The result record of generateCloudFunctionSourceAttribution. -/
structure GCFSAResult where
  sourceAttribution : List SourceAttribution
  detailedConfidenceFactors : DetailedConfidenceFactors
  processingMethod : ProcessingMethod
  translationApplied : Bool
deriving DecidableEq

/-- generateCloudFunctionSourceAttribution (part_000 lines 913-1017):
the four source-attribution entries and the fixed confidence-factor
constants, selected by usesFallback and by whether the request is
cross-language. -/
def generateCloudFunctionSourceAttribution (req : SummaryRequest)
    (usesFallback : Bool) : GCFSAResult :=
  let translationApplied : Bool := req.language != req.targetLanguage
  { sourceAttribution :=
      [{ type := SAType.book_description
         content := req.description.take 200 ++ "..."
         reliability := if req.description.length > 100 then 90 else 60
         relevance := 95
         length := req.description.length
         source := "Google Books API"
         weight := 0.4 },
       { type := SAType.metadata
         content := req.title ++ " by " ++ joinComma req.authors ++ " (" ++
           req.publisher ++ ", " ++ req.publishedDate ++ ")"
         reliability := 95
         relevance := 85
         length := req.title.length + (joinComma req.authors).length
         source := "Google Books API"
         weight := 0.25 },
       { type := SAType.category_data
         content := joinComma req.categories
         reliability := if req.categories.length > 0 then 85 else 40
         relevance := 80
         length := (joinComma req.categories).length
         source := "Google Books API"
         weight := 0.15 },
       { type := if usesFallback then SAType.fallback_template else SAType.ai_knowledge
         content := if usesFallback then "SmartLibroAI language-specific template"
                    else "OpenAI GPT-3.5 knowledge base"
         reliability := if usesFallback then 85 else 90
         relevance := 75
         length := 0
         source := if usesFallback then "SmartLibroAI" else "OpenAI GPT-3.5"
         weight := 0.2 }]
    detailedConfidenceFactors :=
      { dataQuality :=
          { score := 85
            descriptionLength := (req.description.length : ℚ)
            metadataCompleteness := 90
            publisherReliability := 80
            authorCredibility := 75 }
        sourceReliability :=
          { score := if usesFallback then 82 else 88
            primarySourcesCount := 4
            averageSourceReliability := if usesFallback then 80 else 85
            sourceConsistency := if usesFallback then 95 else 90
            verifiableInformation := 85 }
        contentCoverage :=
          { score := if usesFallback then 78 else 82
            topicCoverage := if usesFallback then 75 else 85
            thematicDepth := if usesFallback then 75 else 80
            conceptualClarity := if usesFallback then 85 else 85
            structuralCompleteness := if usesFallback then 80 else 80 }
        aiProcessing :=
          { score := if translationApplied then 75 else (if usesFallback then 88 else 90)
            languageConsistency :=
              if translationApplied then 75 else (if usesFallback then 95 else 95)
            translationQuality := if translationApplied then 80 else 100
            summarizationAccuracy := if usesFallback then 80 else 85
            responseCoherence := if usesFallback then 90 else 90 }
        crossValidation :=
          { score := 85
            multiSourceVerification := 80
            factualConsistency := if usesFallback then 90 else 85
            contextualRelevance := 90
            logicalCoherence := if usesFallback then 90 else 85 } }
    processingMethod :=
      if usesFallback then ProcessingMethod.fallback_template else ProcessingMethod.openai_api
    translationApplied := translationApplied }

/-! ## Error classification and the OpenAI retry loop (part_000 lines 153-173, 385-440) -/

/-- An error thrown by the OpenAI client or by the response handling:
an optional HTTP status and a message string. -/
structure ApiError where
  status : Option ℕ
  message : String
deriving DecidableEq

/-- The rate-limit test of callOpenAIWithRetry (part_000 line 161):
status 429 or a message containing the text rate limit. -/
def retryIsRateLimit (e : ApiError) : Bool :=
  e.status == some 429 || strIncludes e.message "rate limit"

/-- The rate-limit test of the outer catch (part_000 lines 389-391):
status 429, or a message containing 429, or a message containing rate limit. -/
def outerIsRateLimit (e : ApiError) : Bool :=
  e.status == some 429 || strIncludes e.message "429" || strIncludes e.message "rate limit"

/-- The quota test of the outer catch (part_000 lines 393-394). -/
def isQuotaExceeded (e : ApiError) : Bool :=
  strIncludes e.message "insufficient_quota" || strIncludes e.message "quota"

/-- The parsed JSON object returned by the model on success (part_000 line 356).
Optional fields model properties the model may omit; JS-falsy defaults apply. -/
structure ParsedResponse where
  shortSummary : String
  detailedSummary : String
  confidenceScore : Option ℚ
  reasoningFactors : Option (List String)
  sourcesUsed : Option (List String)
deriving DecidableEq

/-- A trace of one execution of callOpenAIWithRetry: the returned or thrown
outcome (none only when the attempt loop runs zero times), the number of
attempts issued, and the backoff delays awaited, in order, in milliseconds. -/
structure RetryTrace where
  result : Option (Except ApiError ParsedResponse)
  attempts : ℕ
  delays : List ℕ

/-- The attempt loop of callOpenAIWithRetry (part_000 lines 156-173), with the
outcome of each attempt supplied as a function of the attempt index.  A failed
attempt k retries only when the error is a rate limit and k < maxRetries - 1,
after a delay of 2 to-the-k times 500 ms; otherwise the error is rethrown. -/
def retryGo (outcomes : ℕ → Except ApiError ParsedResponse) (maxRetries : ℕ) :
    ℕ → ℕ → RetryTrace
  | _, 0 => ⟨none, 0, []⟩
  | attempt, fuel + 1 =>
    match outcomes attempt with
    | Except.ok r => ⟨some (Except.ok r), 1, []⟩
    | Except.error e =>
      if retryIsRateLimit e && decide (attempt < maxRetries - 1) then
        let rest := retryGo outcomes maxRetries (attempt + 1) fuel
        ⟨rest.result, rest.attempts + 1, (2 ^ attempt * 500) :: rest.delays⟩
      else ⟨some (Except.error e), 1, []⟩

/-- callOpenAIWithRetry (part_000 lines 156-173); the for-loop runs at most
maxRetries iterations starting at attempt 0. -/
def callOpenAIWithRetry (outcomes : ℕ → Except ApiError ParsedResponse)
    (maxRetries : ℕ) : RetryTrace :=
  retryGo outcomes maxRetries 0 maxRetries

/-! ## Rate and quota counters (part_000 lines 14-51)

The Firestore collections are modelled as finite maps: rateLimits is keyed
by the pair of client ip and hour-window start, globalUsage by the
year-month string.  A missing document is none. -/

/-- The rateLimits collection: count per (ip, hourStart) document. -/
def RLStore : Type := String × ℕ → Option ℕ

/-- The globalUsage collection: count per year-month document. -/
def GStore : Type := String → Option ℕ

/-- The empty counter store. -/
def emptyRL : RLStore := fun _ => none

/-- The empty global store. -/
def emptyG : GStore := fun _ => none

/-- Write a count into a rateLimits document (set with merge). -/
def setRL (s : RLStore) (key : String × ℕ) (c : ℕ) : RLStore :=
  fun k => if k = key then some c else s k

/-- Write a count into a globalUsage document (set with merge). -/
def setG (g : GStore) (key : String) (c : ℕ) : GStore :=
  fun k => if k = key then some c else g k

def MAX_REQUESTS_PER_HOUR : ℕ := 10

def MAX_GLOBAL_REQUESTS_PER_MONTH : ℕ := 1000

/-- The start of the clock-hour window containing the timestamp
(part_000 line 23; milliseconds since the epoch). -/
def hourStartOf (now : ℕ) : ℕ := now - now % (60 * 60 * 1000)

/-- isRateLimited (part_000 lines 21-34): read the per-ip hourly document;
if it exists at or above the cap, report limited without writing; otherwise
increment (treating a missing document as count 0) and report not limited. -/
def isRateLimited (s : RLStore) (ip : String) (now : ℕ) : Bool × RLStore :=
  match s (ip, hourStartOf now) with
  | some c =>
    if c ≥ MAX_REQUESTS_PER_HOUR then (true, s)
    else (false, setRL s (ip, hourStartOf now) (c + 1))
  | none => (false, setRL s (ip, hourStartOf now) (0 + 1))

/-- isGlobalLimitReached (part_000 lines 38-51), keyed by the year-month
string computed from the current date. -/
def isGlobalLimitReached (g : GStore) (monthKey : String) : Bool × GStore :=
  match g monthKey with
  | some c =>
    if c ≥ MAX_GLOBAL_REQUESTS_PER_MONTH then (true, g)
    else (false, setG g monthKey (c + 1))
  | none => (false, setG g monthKey (0 + 1))

/-! ## The generateBookSummary endpoint (part_000 lines 178-443) -/

/-- The JSON body of an HTTP response: either a success body carrying the
summary (with the fallback flag of the degraded path) or an error body
(with the optional suggestion of the quota branch). -/
inductive RespBody where
  | okData (data : AIBookSummary) (fallback : Bool)
  | errBody (error : String) (suggestion : Option String)
deriving DecidableEq

/-- An HTTP response: status code and JSON body. -/
structure HttpResponse where
  status : ℕ
  body : RespBody
deriving DecidableEq

/-- Does the response carry summary data? -/
def bodyIsData : RespBody → Bool
  | RespBody.okData _ _ => true
  | RespBody.errBody _ _ => false

/-- Does the response carry fallback summary data? -/
def bodyIsFallback : RespBody → Bool
  | RespBody.okData _ fb => fb
  | RespBody.errBody _ _ => false

/-- The AIBookSummary assembled on the success path (part_000 lines 361-380). -/
def buildAiSummary (req : SummaryRequest) (parsed : ParsedResponse) : AIBookSummary :=
  { shortSummary := ensureCharacterLimit parsed.shortSummary 300
    detailedSummary := ensureCharacterLimit parsed.detailedSummary 1000
    confidenceScore := min 100 (max 0 (jsOrNum parsed.confidenceScore 75))
    reasoningFactors := (parsed.reasoningFactors).getD []
    sourcesUsed := (parsed.sourcesUsed).getD ["Google Books API", "Book Description"]
    sourceAttribution := (generateCloudFunctionSourceAttribution req false).sourceAttribution
    detailedConfidenceFactors :=
      (generateCloudFunctionSourceAttribution req false).detailedConfidenceFactors
    language := req.targetLanguage
    processingMethod := (generateCloudFunctionSourceAttribution req false).processingMethod
    translationApplied := (generateCloudFunctionSourceAttribution req false).translationApplied }

/-- The AIBookSummary assembled on the fallback path (part_000 lines 404-418). -/
def buildFallbackSummary (req : SummaryRequest) : AIBookSummary :=
  { shortSummary := generateFallbackShortSummary req
    detailedSummary := generateFallbackDetailedSummary req
    confidenceScore := 50
    reasoningFactors :=
      if req.language != req.targetLanguage then
        ["Fallback summary with translation", "Limited by API rate limits"]
      else ["Fallback summary due to API rate limits"]
    sourcesUsed := ["Book metadata", "Description"]
    sourceAttribution := (generateCloudFunctionSourceAttribution req true).sourceAttribution
    detailedConfidenceFactors :=
      (generateCloudFunctionSourceAttribution req true).detailedConfidenceFactors
    language := req.targetLanguage
    processingMethod := (generateCloudFunctionSourceAttribution req true).processingMethod
    translationApplied := (generateCloudFunctionSourceAttribution req true).translationApplied }

/-- The try/catch section of generateBookSummary after the checks
(part_000 lines 337-440), as a function of the outcome of the (retried)
OpenAI call: success assembles the AI summary; a rate-limited failure
assembles the fallback summary with HTTP 200 and the fallback flag; a quota
failure maps to 429, an API-key failure to 401, anything else to 500. -/
def processCall (req : SummaryRequest) :
    Except ApiError ParsedResponse → HttpResponse
  | Except.ok parsed => ⟨200, RespBody.okData (buildAiSummary req parsed) false⟩
  | Except.error e =>
    if outerIsRateLimit e then
      ⟨200, RespBody.okData (buildFallbackSummary req) true⟩
    else if isQuotaExceeded e then
      ⟨429, RespBody.errBody "OpenAI quota exceeded. Please check your billing."
        (some "Your OpenAI account may need billing setup or has exceeded monthly limits.")⟩
    else if strIncludes e.message "API key" then
      ⟨401, RespBody.errBody "Authentication failed with AI service" none⟩
    else
      ⟨500, RespBody.errBody "Failed to generate book summary. Please try again." none⟩

/-- The full request handler generateBookSummary (part_000 lines 185-441):
rate check, global check, body validation, method check, API-key check, then
the call-processing section.  Returns the response together with the two
counter stores as left after the handled request. -/
def generateBookSummary (rl : RLStore) (g : GStore) (ip : String) (now : ℕ)
    (monthKey : String) (method : String) (apiKey : String)
    (req : SummaryRequest) (callResult : Except ApiError ParsedResponse) :
    HttpResponse × RLStore × GStore :=
  if (isRateLimited rl ip now).1 then
    (⟨429, RespBody.errBody "Rate limit exceeded. Please try again later." none⟩,
     (isRateLimited rl ip now).2, g)
  else if (isGlobalLimitReached g monthKey).1 then
    (⟨503, RespBody.errBody
      "Service temporarily unavailable: free tier usage limit reached." none⟩,
     (isRateLimited rl ip now).2, (isGlobalLimitReached g monthKey).2)
  else if req.title == "" || req.isbn == "" then
    (⟨400, RespBody.errBody "Invalid request. Title and ISBN are required." none⟩,
     (isRateLimited rl ip now).2, (isGlobalLimitReached g monthKey).2)
  else if method != "POST" then
    (⟨405, RespBody.errBody "Method not allowed" none⟩,
     (isRateLimited rl ip now).2, (isGlobalLimitReached g monthKey).2)
  else if apiKey == "" then
    (⟨500, RespBody.errBody "AI service not configured" none⟩,
     (isRateLimited rl ip now).2, (isGlobalLimitReached g monthKey).2)
  else
    (processCall req callResult,
     (isRateLimited rl ip now).2, (isGlobalLimitReached g monthKey).2)

/-- A sequence of requests from one client against the rate limiter, at the
given timestamps, threading the store. -/
def runRequests (ip : String) : List ℕ → RLStore → List Bool × RLStore
  | [], s => ([], s)
  | t :: ts, s =>
    ((isRateLimited s ip t).1 :: (runRequests ip ts (isRateLimited s ip t).2).1,
     (runRequests ip ts (isRateLimited s ip t).2).2)

/-! ## The client-side confidence scorer
(book.service.ts, calculateDetailedConfidence, lines 365-504) -/

/-- bookData.description length (book.service.ts line 372). -/
def descriptionLengthOf (b : BookMetadata) : ℕ := b.description.length

/-- hasCompleteMetadata (book.service.ts line 373): JS truthiness of title,
authors length, publisher and publishedDate. -/
def hasCompleteMetadata (b : BookMetadata) : Bool :=
  b.title != "" && b.authors.length != 0 && b.publisher != "" && b.publishedDate != ""

/-- pageCountAvailable (book.service.ts line 374). -/
def pageCountAvailable (b : BookMetadata) : Bool := b.pageCount > 0

/-- categoriesAvailable (book.service.ts line 375). -/
def categoriesAvailable (b : BookMetadata) : Bool := b.categories.length > 0

/-- dataQualityScore (book.service.ts lines 377-384). -/
def dataQualityScore (b : BookMetadata) : ℚ :=
  min 100
    ((if descriptionLengthOf b > 100 then (30 : ℚ)
      else (descriptionLengthOf b : ℚ) / 100 * 30) +
     (if hasCompleteMetadata b then 25 else 0) +
     (if pageCountAvailable b then 15 else 0) +
     (if categoriesAvailable b then 15 else 0) +
     (if b.averageRating > 0 then 10 else 0) +
     (if b.ratingsCount > 0 then 5 else 0))

/-- publisherReliability (book.service.ts line 386). -/
def publisherReliability (b : BookMetadata) : ℚ :=
  if b.publisher != "Unknown Publisher" then 80 else 40

/-- authorCredibility (book.service.ts line 387); a missing first author is
not the sentinel, hence scores 70. -/
def authorCredibility (b : BookMetadata) : ℚ :=
  if b.authors.head? != some "Unknown Author" then 70 else 30

/-- metadataCompleteness (book.service.ts line 388). -/
def metadataCompleteness (b : BookMetadata) : ℚ :=
  if hasCompleteMetadata b then 90 else 50

/-- sourceReliabilityScore (book.service.ts lines 390-394). -/
def sourceReliabilityScore (b : BookMetadata) : ℚ :=
  min 100
    (publisherReliability b * 0.3 + authorCredibility b * 0.3 + metadataCompleteness b * 0.4)

/-- topicCoverage (book.service.ts line 396). -/
def topicCoverage (b : BookMetadata) : ℚ := min 100 ((descriptionLengthOf b : ℚ) / 10)

/-- thematicDepth (book.service.ts line 397). -/
def thematicDepth (b : BookMetadata) : ℚ := if categoriesAvailable b then 80 else 40

/-- conceptualClarity (book.service.ts line 398). -/
def conceptualClarity (b : BookMetadata) : ℚ :=
  if descriptionLengthOf b > 200 then 90 else 60

/-- contentCoverageScore (book.service.ts lines 400-404). -/
def contentCoverageScore (b : BookMetadata) : ℚ :=
  min 100 (topicCoverage b * 0.4 + thematicDepth b * 0.3 + conceptualClarity b * 0.3)

/-- The four aiProcessing factor constants of the client scorer
(book.service.ts lines 406-409), selected by the two processing flags. -/
structure AiFactors where
  languageConsistency : ℚ
  translationQuality : ℚ
  summarizationAccuracy : ℚ
  responseCoherence : ℚ
deriving DecidableEq

/-- book.service.ts lines 406-409: languageConsistency, summarizationAccuracy
and responseCoherence depend only on usesFallback; translationQuality depends
only on translationApplied. -/
def aiFactors (usesFallback translationApplied : Bool) : AiFactors :=
  { languageConsistency := if usesFallback then 95 else 85
    translationQuality := if translationApplied then 75 else 95
    summarizationAccuracy := if usesFallback then 80 else 90
    responseCoherence := if usesFallback then 85 else 95 }

/-- aiProcessingScore (book.service.ts lines 411-416). -/
def aiProcessingScore (usesFallback translationApplied : Bool) : ℚ :=
  min 100
    ((aiFactors usesFallback translationApplied).languageConsistency * 0.3 +
     (aiFactors usesFallback translationApplied).translationQuality * 0.3 +
     (aiFactors usesFallback translationApplied).summarizationAccuracy * 0.2 +
     (aiFactors usesFallback translationApplied).responseCoherence * 0.2)

/-- multiSourceVerification (book.service.ts line 418). -/
def multiSourceVerification (b : BookMetadata) : ℚ :=
  if hasCompleteMetadata b then 80 else 50

/-- contextualRelevance (book.service.ts line 420). -/
def contextualRelevance (b : BookMetadata) : ℚ :=
  if categoriesAvailable b then 90 else 70

/-- crossValidationScore (book.service.ts lines 423-428); factualConsistency
is the constant 85 and logicalCoherence the constant 90. -/
def crossValidationScore (b : BookMetadata) : ℚ :=
  min 100
    (multiSourceVerification b * 0.3 + 85 * 0.2 + contextualRelevance b * 0.3 + 90 * 0.2)

/-- translationPenalty (book.service.ts line 430). -/
def translationPenalty (translationApplied : Bool) : ℚ :=
  if translationApplied then 10 else 0

/-- overallScore before rounding (book.service.ts lines 432-438). -/
def overallScoreQ (b : BookMetadata) (usesFallback translationApplied : Bool) : ℚ :=
  max 0 (min 100
    ((dataQualityScore b * 0.25 +
      sourceReliabilityScore b * 0.25 +
      contentCoverageScore b * 0.2 +
      aiProcessingScore usesFallback translationApplied * 0.15 +
      crossValidationScore b * 0.15) - translationPenalty translationApplied))

/-- The client-side sourceAttribution list (book.service.ts lines 440-477). -/
def bsSourceAttribution (b : BookMetadata) (usesFallback : Bool) : List SourceAttribution :=
  [{ type := SAType.book_description
     content := b.description.take 200 ++ "..."
     reliability := if descriptionLengthOf b > 100 then 90 else 60
     relevance := 95
     length := descriptionLengthOf b
     source := "Google Books API"
     weight := if descriptionLengthOf b > 0 then 0.4 else 0 },
   { type := SAType.metadata
     content := "Title: " ++ b.title ++ ", Authors: " ++ joinComma b.authors ++
       ", Publisher: " ++ b.publisher
     reliability := if hasCompleteMetadata b then 95 else 70
     relevance := 80
     length := b.title.length + (joinComma b.authors).length
     source := "Google Books API"
     weight := 0.3 },
   { type := SAType.category_data
     content := jsOrStr (some (joinComma b.categories)) "Uncategorized"
     reliability := if categoriesAvailable b then 85 else 40
     relevance := 75
     length := (joinComma b.categories).length
     source := "Google Books API"
     weight := if categoriesAvailable b then 0.15 else 0.05 },
   { type := if usesFallback then SAType.fallback_template else SAType.ai_knowledge
     content := if usesFallback then "Language-specific template"
                else "OpenAI GPT knowledge base"
     reliability := if usesFallback then 85 else 90
     relevance := 70
     length := 0
     source := if usesFallback then "SmartLibroAI Template" else "OpenAI GPT-3.5"
     weight := if usesFallback then 0.15 else 0.15 }]

/-- The factors block of ConfidenceMetrics (interfaces part_002 lines 119-127). -/
structure CMFactors where
  sourcesUsed : ℕ
  averageSourceRating : ℤ
  descriptionLength : ℕ
  reviewsCount : ℕ
  dataQualityScore : ℤ
  aiProcessingScore : ℤ
  translationPenalty : ℚ
deriving DecidableEq

/-- The detailedBreakdown block of ConfidenceMetrics (part_002 lines 128-134). -/
structure CMBreakdown where
  dataQuality : ℤ
  sourceReliability : ℤ
  contentCoverage : ℤ
  aiProcessing : ℤ
  crossValidation : ℤ
deriving DecidableEq

/-- ConfidenceMetrics (interfaces part_002 lines 114-136); rounded fields are
integers. -/
structure ConfidenceMetrics where
  overallScore : ℤ
  sourceReliability : ℤ
  contentCoverage : ℤ
  crossReferenceValidation : ℤ
  factors : CMFactors
  detailedBreakdown : CMBreakdown
  sourceAttribution : List SourceAttribution
deriving DecidableEq

/-- calculateDetailedConfidence (book.service.ts lines 365-504), restricted to
its confidence output (the function also returns the attribution list, which
is the sourceAttribution field here). -/
def calculateDetailedConfidence (b : BookMetadata)
    (usesFallback translationApplied : Bool) : ConfidenceMetrics :=
  { overallScore := jsRound (overallScoreQ b usesFallback translationApplied)
    sourceReliability := jsRound (sourceReliabilityScore b)
    contentCoverage := jsRound (contentCoverageScore b)
    crossReferenceValidation := jsRound (crossValidationScore b)
    factors :=
      { sourcesUsed :=
          ((bsSourceAttribution b usesFallback).filter (fun s => decide (0 < s.weight))).length
        averageSourceRating :=
          jsRound (((bsSourceAttribution b usesFallback).map
            (fun s => s.reliability)).sum / ((bsSourceAttribution b usesFallback).length : ℚ))
        descriptionLength := descriptionLengthOf b
        reviewsCount := b.ratingsCount
        dataQualityScore := jsRound (dataQualityScore b)
        aiProcessingScore := jsRound (aiProcessingScore usesFallback translationApplied)
        translationPenalty := translationPenalty translationApplied }
    detailedBreakdown :=
      { dataQuality := jsRound (dataQualityScore b)
        sourceReliability := jsRound (sourceReliabilityScore b)
        contentCoverage := jsRound (contentCoverageScore b)
        aiProcessing := jsRound (aiProcessingScore usesFallback translationApplied)
        crossValidation := jsRound (crossValidationScore b) }
    sourceAttribution := bsSourceAttribution b usesFallback }

/-! ## The client-side language validator
(book.service.ts, validateAndCleanSummaryLanguage, lines 774-845)

The pattern tables it consumes (FORBIDDEN_ENGLISH_WORDS,
LANGUAGE_REPLACEMENTS, LANGUAGE_PHRASE_PATTERNS, LANGUAGE_WORD_PATTERNS,
imported from app/core/utils/constants) are not among the provided sources,
so the tables are kept abstract and the validator is embedded structurally. -/

/-- Case-insensitive global literal replacement
(text.replace(new RegExp(pattern, "gi"), repl) for a literal pattern):
scan left to right, never rescanning an inserted replacement.  Fuel-driven;
the fuel is the text length, which bounds the number of scan steps. -/
def replaceCIAux (pat repl : List Char) : ℕ → List Char → List Char
  | 0, l => l
  | _ + 1, [] => []
  | n + 1, c :: cs =>
    if !pat.isEmpty && leadsWith (pat.map jsLowerChar) ((c :: cs).map jsLowerChar) then
      repl ++ replaceCIAux pat repl n ((c :: cs).drop pat.length)
    else c :: replaceCIAux pat repl n cs

/-- String-level case-insensitive global literal replacement. -/
def replaceCI (pat repl text : String) : String :=
  ⟨replaceCIAux pat.data repl.data text.data.length text.data⟩

/-- Apply an ordered list of case-insensitive phrase substitutions
(book.service.ts lines 787-793: patterns compiled with flags gi and no
word-boundary anchors). -/
def applyPhraseRules (rules : List (String × String)) (text : String) : String :=
  rules.foldl (fun t pr => replaceCI pr.1 pr.2 t) text

/-- The third pass of the validator (book.service.ts lines 803-809): for each
forbidden word that has a replacement for the target language, substitute it
whole-word case-insensitively.  The occurrence test of the source only gates
an identical replacement, so it is dropped. -/
def applyForbiddenPass (forbidden : List String)
    (repl : List (String × String)) (text : String) : String :=
  forbidden.foldl
    (fun t w =>
      match repl.lookup (jsToLower w) with
      | some r => replaceWholeWord w r t
      | none => t) text

/-- Modelled from the spec: the per-language substitution tables imported
from app/core/utils/constants (LANGUAGE_PHRASE_PATTERNS,
LANGUAGE_WORD_PATTERNS, LANGUAGE_REPLACEMENTS, FORBIDDEN_ENGLISH_WORDS) are
missing from the provided sources.  Per spec 4.4 they are ordered per-language
rule tables: multi-word phrase patterns, single-word patterns, and a
replacement map for a fixed forbidden-word list; their contents are left
abstract. -/
structure LanguageTables where
  phrasePatterns : String → List (String × String)
  wordPatterns : String → List (String × String)
  replacements : String → List (String × String)
  forbiddenWords : List String

/-- validateAndCleanSummaryLanguage (book.service.ts lines 774-845): English
targets are returned untouched; otherwise each summary gets the phrase pass,
then the word pass, then the forbidden-word pass. -/
def validateAndCleanSummaryLanguage (tabs : LanguageTables) (targetLanguage : String)
    (shortSummary detailedSummary : String) : String × String :=
  if targetLanguage == "en" then (shortSummary, detailedSummary)
  else
    (applyForbiddenPass tabs.forbiddenWords (tabs.replacements targetLanguage)
       (applyCleanRules (tabs.wordPatterns targetLanguage)
         (applyPhraseRules (tabs.phrasePatterns targetLanguage) shortSummary)),
     applyForbiddenPass tabs.forbiddenWords (tabs.replacements targetLanguage)
       (applyCleanRules (tabs.wordPatterns targetLanguage)
         (applyPhraseRules (tabs.phrasePatterns targetLanguage) detailedSummary)))

/-! ## Concrete sample inputs used by the closed check theorems -/

/-- The scenario book of spec section 8. -/
def sampleBook : BookMetadata :=
  { isbn := "9780525520024"
    title := "Nexus"
    authors := ["Yuval Noah Harari"]
    publisher := "Random House"
    publishedDate := "2024-09-10"
    description := "A sweeping history of information networks."
    pageCount := 528
    categories := ["History"]
    averageRating := 4
    ratingsCount := 100
    language := "en" }

/-- The scenario request of spec section 8 (English book, Spanish summary). -/
def sampleRequest : SummaryRequest :=
  { title := "Nexus"
    authors := ["Yuval Noah Harari"]
    isbn := "9780525520024"
    description := "A sweeping history of information networks."
    categories := ["History"]
    publisher := "Random House"
    publishedDate := "2024-09-10"
    pageCount := 528
    language := "en"
    targetLanguage := "es" }

/-- An upstream rate-limit failure: HTTP 429. -/
def rateLimitedError : ApiError := ⟨some 429, "Rate limit reached for requests"⟩

/-- An upstream quota failure as classified by the handler. -/
def quotaError : ApiError := ⟨none, "insufficient_quota"⟩

/-- An upstream authentication failure as classified by the handler. -/
def authError : ApiError := ⟨none, "Incorrect API key provided"⟩

/-- A malformed-response failure: the error thrown at part_000 line 353. -/
def unknownError : ApiError := ⟨none, "No response from OpenAI"⟩

/-- Every attempt fails rate-limited. -/
def allRateLimited : ℕ → Except ApiError ParsedResponse :=
  fun _ => Except.error rateLimitedError

/-- Every attempt fails with an authentication error. -/
def allAuthFailed : ℕ → Except ApiError ParsedResponse :=
  fun _ => Except.error authError

/-- Empty language tables, for closed instances of the validator theorems. -/
def emptyTables : LanguageTables :=
  ⟨fun _ => [], fun _ => [], fun _ => [], []⟩

/-- A store whose hourly counter for one client already sits at the cap. -/
def cappedRL : RLStore := setRL emptyRL ("client", 0) 10

/-- Length discipline of a response body: any carried summary respects the
short and detailed character budgets. -/
def respLenOK : RespBody → Prop
  | RespBody.okData s _ => s.shortSummary.length ≤ 300 ∧ s.detailedSummary.length ≤ 1000
  | RespBody.errBody _ _ => True

/-! ## Bounds of the client scorer sub-scores -/

theorem dataQualityScore_nonneg (b : BookMetadata) : 0 ≤ dataQualityScore b := by
  refine le_min (by norm_num) ?_
  split_ifs <;> positivity

theorem dataQualityScore_le (b : BookMetadata) : dataQualityScore b ≤ 100 :=
  min_le_left _ _

theorem sourceReliabilityScore_lb (b : BookMetadata) : 41 ≤ sourceReliabilityScore b := by
  refine le_min (by norm_num) ?_
  unfold publisherReliability authorCredibility metadataCompleteness
  split_ifs <;> norm_num

theorem sourceReliabilityScore_ub (b : BookMetadata) : sourceReliabilityScore b ≤ 81 := by
  refine (min_le_right _ _).trans ?_
  unfold publisherReliability authorCredibility metadataCompleteness
  split_ifs <;> norm_num

theorem topicCoverage_nonneg (b : BookMetadata) : 0 ≤ topicCoverage b :=
  le_min (by norm_num) (by positivity)

theorem contentCoverageScore_lb (b : BookMetadata) : 30 ≤ contentCoverageScore b := by
  refine le_min (by norm_num) ?_
  have h1 := topicCoverage_nonneg b
  unfold thematicDepth conceptualClarity
  split_ifs <;> nlinarith

theorem contentCoverageScore_ub (b : BookMetadata) : contentCoverageScore b ≤ 100 :=
  min_le_left _ _

theorem aiProcessingScore_eq (uf ta : Bool) :
    aiProcessingScore uf ta =
      if uf then (if ta then 84 else 90) else (if ta then 85 else 91) := by
  cases uf <;> cases ta <;> norm_num [aiProcessingScore, aiFactors, min_def]

theorem crossValidationScore_lb (b : BookMetadata) : 71 ≤ crossValidationScore b := by
  refine le_min (by norm_num) ?_
  unfold multiSourceVerification contextualRelevance
  split_ifs <;> norm_num

theorem crossValidationScore_ub (b : BookMetadata) : crossValidationScore b ≤ 86 := by
  refine (min_le_right _ _).trans ?_
  unfold multiSourceVerification contextualRelevance
  split_ifs <;> norm_num

/-- The clamp of the overall score never binds: the weighted sum minus the
penalty always lies strictly inside the interval from 0 to 100. -/
theorem overallScoreQ_unclamped (b : BookMetadata) (uf ta : Bool) :
    overallScoreQ b uf ta =
      (dataQualityScore b * 0.25 + sourceReliabilityScore b * 0.25 +
       contentCoverageScore b * 0.2 + aiProcessingScore uf ta * 0.15 +
       crossValidationScore b * 0.15) - translationPenalty ta := by
  have h1 := dataQualityScore_nonneg b
  have h2 := dataQualityScore_le b
  have h3 := sourceReliabilityScore_lb b
  have h4 := sourceReliabilityScore_ub b
  have h5 := contentCoverageScore_lb b
  have h6 := contentCoverageScore_ub b
  have h7 := crossValidationScore_lb b
  have h8 := crossValidationScore_ub b
  have h9 : 84 ≤ aiProcessingScore uf ta ∧ aiProcessingScore uf ta ≤ 91 := by
    rw [aiProcessingScore_eq]
    split_ifs <;> norm_num
  have hp : 0 ≤ translationPenalty ta ∧ translationPenalty ta ≤ 10 := by
    unfold translationPenalty
    split_ifs <;> norm_num
  unfold overallScoreQ
  rw [min_eq_right (by nlinarith [h9.1, h9.2, hp.1, hp.2]),
    max_eq_right (by nlinarith [h9.1, h9.2, hp.1, hp.2])]

/-- jsRound separates points at distance 10.9. -/
theorem jsRound_shift_lt (x : ℚ) : jsRound x < jsRound (x + 10.9) := by
  unfold jsRound
  have h1 : ⌊x + 1/2⌋ + 10 = ⌊x + 1/2 + ((10 : ℤ) : ℚ)⌋ := (Int.floor_add_int _ _).symm
  have h2 : ⌊x + 1/2 + ((10 : ℤ) : ℚ)⌋ ≤ ⌊x + 10.9 + 1/2⌋ := by
    apply Int.floor_mono
    push_cast
    linarith
  omega

/-- The languageConsistency constant of the cloud attribution function. -/
theorem gcfsa_languageConsistency (req : SummaryRequest) (uf : Bool) :
    (generateCloudFunctionSourceAttribution req
        uf).detailedConfidenceFactors.aiProcessing.languageConsistency =
      if req.language != req.targetLanguage then 75 else 95 := by
  show (if req.language != req.targetLanguage then (75 : ℚ) else if uf then 95 else 95) = _
  split_ifs <;> rfl

/-! ## Claim theorems -/

/-- C1: for every book metadata input and every combination of usesFallback
and translationApplied, the overall confidence of the client scorer equals
clamp(0, 100, 0.25 dataQuality + 0.25 sourceReliability +
0.2 contentCoverage + 0.15 aiProcessing + 0.15 crossValidation minus a
translation penalty of 10 exactly when translationApplied), and the overall
score and every sub-score are rounded to integers in the output. -/
theorem confidence_overall_clamp_formula (b : BookMetadata) (uf ta : Bool) :
    (calculateDetailedConfidence b uf ta).overallScore =
      jsRound (max 0 (min 100
        ((0.25 * dataQualityScore b + 0.25 * sourceReliabilityScore b +
          0.2 * contentCoverageScore b + 0.15 * aiProcessingScore uf ta +
          0.15 * crossValidationScore b) - (if ta then 10 else 0))))
    ∧ (calculateDetailedConfidence b uf ta).detailedBreakdown =
        ⟨jsRound (dataQualityScore b), jsRound (sourceReliabilityScore b),
         jsRound (contentCoverageScore b), jsRound (aiProcessingScore uf ta),
         jsRound (crossValidationScore b)⟩ := by
  constructor
  · show jsRound (overallScoreQ b uf ta) = _
    have h : (dataQualityScore b * 0.25 + sourceReliabilityScore b * 0.25 +
        contentCoverageScore b * 0.2 + aiProcessingScore uf ta * 0.15 +
        crossValidationScore b * 0.15) - translationPenalty ta =
        (0.25 * dataQualityScore b + 0.25 * sourceReliabilityScore b +
         0.2 * contentCoverageScore b + 0.15 * aiProcessingScore uf ta +
         0.15 * crossValidationScore b) - (if ta then 10 else 0) := by
      unfold translationPenalty
      ring
    unfold overallScoreQ
    rw [h]
  · rfl

/-- C2 counterexample: in the client scorer (book.service.ts line 406) the
aiProcessing.languageConsistency factor is 85 under both values of
translationApplied (with usesFallback false), so the translated run does not
have a strictly lower languageConsistency there. -/
theorem translation_languageConsistency_counterexample :
    (aiFactors false true).languageConsistency = 85 ∧
    (aiFactors false false).languageConsistency = 85 ∧
    ¬((aiFactors false true).languageConsistency <
      (aiFactors false false).languageConsistency) := by
  refine ⟨rfl, rfl, ?_⟩
  simp [aiFactors]

/-- C2 amended: comparing two client-scorer runs that differ only in
translationApplied, the translated run has the same languageConsistency, a
strictly lower translationQuality factor, a strictly lower aiProcessing
score, and a strictly lower overall score; in the cloud attribution function
the translated run has a strictly lower languageConsistency factor. -/
theorem translation_lowers_scores (b : BookMetadata) (uf : Bool) :
    (aiFactors uf true).languageConsistency = (aiFactors uf false).languageConsistency
    ∧ (aiFactors uf true).translationQuality < (aiFactors uf false).translationQuality
    ∧ aiProcessingScore uf true < aiProcessingScore uf false
    ∧ (calculateDetailedConfidence b uf true).overallScore <
        (calculateDetailedConfidence b uf false).overallScore
    ∧ ∀ (req : SummaryRequest) (uf2 : Bool), req.language ≠ req.targetLanguage →
        (generateCloudFunctionSourceAttribution req
            uf2).detailedConfidenceFactors.aiProcessing.languageConsistency <
          (generateCloudFunctionSourceAttribution { req with language := req.targetLanguage }
            uf2).detailedConfidenceFactors.aiProcessing.languageConsistency := by
  refine ⟨rfl, ?_, ?_, ?_, ?_⟩
  · cases uf <;> norm_num [aiFactors]
  · rw [aiProcessingScore_eq, aiProcessingScore_eq]
    cases uf <;> norm_num
  · show jsRound (overallScoreQ b uf true) < jsRound (overallScoreQ b uf false)
    have hai : aiProcessingScore uf false = aiProcessingScore uf true + 6 := by
      rw [aiProcessingScore_eq, aiProcessingScore_eq]
      cases uf <;> norm_num
    rw [overallScoreQ_unclamped, overallScoreQ_unclamped]
    have key : (dataQualityScore b * 0.25 + sourceReliabilityScore b * 0.25 +
        contentCoverageScore b * 0.2 + aiProcessingScore uf false * 0.15 +
        crossValidationScore b * 0.15) - translationPenalty false =
        ((dataQualityScore b * 0.25 + sourceReliabilityScore b * 0.25 +
          contentCoverageScore b * 0.2 + aiProcessingScore uf true * 0.15 +
          crossValidationScore b * 0.15) - translationPenalty true) + 10.9 := by
      rw [hai]
      unfold translationPenalty
      norm_num
      ring
    rw [key]
    exact jsRound_shift_lt _
  · intro req uf2 h
    rw [gcfsa_languageConsistency, gcfsa_languageConsistency]
    have h1 : (req.language != req.targetLanguage) = true := by
      simp [bne_iff_ne, h]
    have h2 : (({ req with language := req.targetLanguage } :
        SummaryRequest).language != req.targetLanguage) = false := by
      simp [bne_iff_ne]
    rw [h1, h2]
    norm_num

/-- C2 witness: the amended statement at the sample inputs, with the
cross-language hypothesis discharged at the sample request. -/
theorem translation_lowers_scores_check :
    (calculateDetailedConfidence sampleBook false true).overallScore <
      (calculateDetailedConfidence sampleBook false false).overallScore
    ∧ (generateCloudFunctionSourceAttribution sampleRequest
          false).detailedConfidenceFactors.aiProcessing.languageConsistency <
        (generateCloudFunctionSourceAttribution
          { sampleRequest with language := sampleRequest.targetLanguage }
          false).detailedConfidenceFactors.aiProcessing.languageConsistency :=
  ⟨(translation_lowers_scores sampleBook false).2.2.2.1,
   (translation_lowers_scores sampleBook false).2.2.2.2 sampleRequest false (by decide)⟩

/-- The error branch of processCall under a rate-limited classification. -/
theorem processCall_rl (req : SummaryRequest) (e : ApiError)
    (h : outerIsRateLimit e = true) :
    processCall req (Except.error e) =
      ⟨200, RespBody.okData (buildFallbackSummary req) true⟩ := by
  simp only [processCall]
  rw [if_pos h]

/-- The error branch of processCall under a non-rate-limited classification. -/
theorem processCall_not_rl (req : SummaryRequest) (e : ApiError)
    (h : outerIsRateLimit e = false) :
    processCall req (Except.error e) =
      if isQuotaExceeded e then
        ⟨429, RespBody.errBody "OpenAI quota exceeded. Please check your billing."
          (some "Your OpenAI account may need billing setup or has exceeded monthly limits.")⟩
      else if strIncludes e.message "API key" then
        ⟨401, RespBody.errBody "Authentication failed with AI service" none⟩
      else ⟨500, RespBody.errBody "Failed to generate book summary. Please try again." none⟩ := by
  simp only [processCall]
  rw [if_neg (show ¬(outerIsRateLimit e = true) by simp [h])]

/-- C3: a rate-limited failure of the external call (and only that failure)
produces a 200 response carrying the fallback summary: processingMethod is
fallback_template, confidenceScore is 50, and the texts are exactly those of
the deterministic fallback generator applied to the request metadata. -/
theorem fallback_on_rate_limit (req : SummaryRequest) (e : ApiError)
    (h : outerIsRateLimit e = true) :
    processCall req (Except.error e) =
      ⟨200, RespBody.okData (buildFallbackSummary req) true⟩
    ∧ (buildFallbackSummary req).processingMethod = ProcessingMethod.fallback_template
    ∧ (buildFallbackSummary req).confidenceScore = 50
    ∧ (buildFallbackSummary req).shortSummary = generateFallbackShortSummary req
    ∧ (buildFallbackSummary req).detailedSummary = generateFallbackDetailedSummary req
    ∧ (∀ e2 : ApiError, outerIsRateLimit e2 = false →
        bodyIsFallback (processCall req (Except.error e2)).body = false)
    ∧ ∀ parsed : ParsedResponse,
        bodyIsFallback (processCall req (Except.ok parsed)).body = false := by
  refine ⟨processCall_rl req e h, rfl, rfl, rfl, rfl, ?_, fun parsed => rfl⟩
  intro e2 h2
  rw [processCall_not_rl req e2 h2]
  split_ifs <;> rfl

/-- C3 witness: the rate-limited branch at the sample request. -/
theorem fallback_on_rate_limit_check :
    processCall sampleRequest (Except.error rateLimitedError) =
      ⟨200, RespBody.okData (buildFallbackSummary sampleRequest) true⟩
    ∧ (buildFallbackSummary sampleRequest).confidenceScore = 50
    ∧ (buildFallbackSummary sampleRequest).processingMethod =
        ProcessingMethod.fallback_template :=
  ⟨(fallback_on_rate_limit sampleRequest rateLimitedError (by decide)).1,
   (fallback_on_rate_limit sampleRequest rateLimitedError (by decide)).2.2.1,
   (fallback_on_rate_limit sampleRequest rateLimitedError (by decide)).2.1⟩

/-- C4: every non-rate-limited failure of the external call is propagated as a
classified error with no summary data: quota as 429, authentication as 401,
anything else (including a malformed response) as 500; and a fallback
response can only arise from a rate-limited failure. -/
theorem terminal_errors_propagate (req : SummaryRequest) (e : ApiError)
    (h : outerIsRateLimit e = false) :
    bodyIsData (processCall req (Except.error e)).body = false
    ∧ (processCall req (Except.error e)).status =
        (if isQuotaExceeded e then 429
         else if strIncludes e.message "API key" then 401 else 500)
    ∧ ∀ e2 : ApiError,
        bodyIsFallback (processCall req (Except.error e2)).body = true →
        outerIsRateLimit e2 = true := by
  refine ⟨?_, ?_, ?_⟩
  · rw [processCall_not_rl req e h]
    split_ifs <;> rfl
  · rw [processCall_not_rl req e h]
    split_ifs <;> rfl
  · intro e2 h2
    by_cases h3 : outerIsRateLimit e2 = true
    · exact h3
    · rw [Bool.not_eq_true] at h3
      rw [processCall_not_rl req e2 h3] at h2
      split_ifs at h2 <;> simp [bodyIsFallback] at h2

/-- C4 witness: the three terminal classifications at concrete errors. -/
theorem terminal_errors_propagate_check :
    (processCall sampleRequest (Except.error quotaError)).status = 429
    ∧ (processCall sampleRequest (Except.error authError)).status = 401
    ∧ (processCall sampleRequest (Except.error unknownError)).status = 500 := by
  have h1 := (terminal_errors_propagate sampleRequest quotaError (by decide)).2.1
  have h2 := (terminal_errors_propagate sampleRequest authError (by decide)).2.1
  have h3 := (terminal_errors_propagate sampleRequest unknownError (by decide)).2.1
  refine ⟨?_, ?_, ?_⟩
  · rw [h1]; decide
  · rw [h2]; decide
  · rw [h3]; decide

/-- C7: every response carrying summary data, on the AI-success path as well
as on the fallback path and through the full handler, has a shortSummary of
at most 300 characters and a detailedSummary of at most 1000 characters. -/
theorem summary_length_budgets (rl : RLStore) (g : GStore) (ip : String) (now : ℕ)
    (monthKey method apiKey : String) (req : SummaryRequest)
    (cr : Except ApiError ParsedResponse) :
    respLenOK (processCall req cr).body
    ∧ respLenOK (generateBookSummary rl g ip now monthKey method apiKey req cr).1.body := by
  have hp : respLenOK (processCall req cr).body := by
    cases cr with
    | ok parsed =>
      exact ⟨ensureCharacterLimit_length_le _ 300 (by norm_num),
        ensureCharacterLimit_length_le _ 1000 (by norm_num)⟩
    | error e =>
      by_cases hrl : outerIsRateLimit e = true
      · rw [processCall_rl req e hrl]
        exact ⟨ensureCharacterLimit_length_le _ 300 (by norm_num),
          ensureCharacterLimit_length_le _ 1000 (by norm_num)⟩
      · rw [Bool.not_eq_true] at hrl
        rw [processCall_not_rl req e hrl]
        split_ifs <;> trivial
  refine ⟨hp, ?_⟩
  unfold generateBookSummary
  split_ifs <;> trivial

/-! ## Retry loop lemmas -/

/-- With at least one unit of fuel the loop issues at least one attempt. -/
theorem retryGo_attempts_pos (outcomes : ℕ → Except ApiError ParsedResponse)
    (mr a f : ℕ) : 1 ≤ (retryGo outcomes mr a (f + 1)).attempts := by
  rw [retryGo]
  cases outcomes a with
  | ok r => simp
  | error e =>
    simp only
    split
    · simp
    · simp

/-- A non-rate-limited failure aborts at once: one attempt, no delay,
the error rethrown. -/
theorem retryGo_abort (outcomes : ℕ → Except ApiError ParsedResponse)
    (mr a f : ℕ) (e : ApiError) (h : outcomes a = Except.error e)
    (hr : retryIsRateLimit e = false) :
    retryGo outcomes mr a (f + 1) = ⟨some (Except.error e), 1, []⟩ := by
  rw [retryGo, h]
  simp [hr]

/-- The retry loop invariant: under the fuel discipline of the top-level call,
at most fuel attempts are issued, the recorded delays follow the exponential
schedule indexed from the starting attempt, and every attempt that was
followed by another one failed with a rate-limit error. -/
theorem retryGo_main (outcomes : ℕ → Except ApiError ParsedResponse) (mr : ℕ) :
    ∀ f a : ℕ, a + f = mr →
      (retryGo outcomes mr a f).attempts ≤ f
      ∧ (retryGo outcomes mr a f).delays =
          (List.range ((retryGo outcomes mr a f).attempts - 1)).map
            (fun k => 2 ^ (a + k) * 500)
      ∧ (∀ k, k + 1 < (retryGo outcomes mr a f).attempts →
          ∃ e, outcomes (a + k) = Except.error e ∧ retryIsRateLimit e = true) := by
  intro f
  induction f with
  | zero =>
    intro a ha
    exact ⟨le_refl 0, rfl, fun k hk => absurd hk (by simp [retryGo])⟩
  | succ n ih =>
    intro a ha
    rw [retryGo]
    cases houtcome : outcomes a with
    | ok r =>
      refine ⟨by simp, by simp, ?_⟩
      intro k hk
      simp at hk
    | error e =>
      simp only
      by_cases hc : (retryIsRateLimit e && decide (a < mr - 1)) = true
      · rw [if_pos hc]
        rw [Bool.and_eq_true] at hc
        have hrc : retryIsRateLimit e = true := hc.1
        have hlt : a < mr - 1 := of_decide_eq_true hc.2
        have hn1 : 1 ≤ n := by omega
        obtain ⟨m, rfl⟩ : ∃ m, n = m + 1 := ⟨n - 1, by omega⟩
        have hrest := ih (a + 1) (by omega)
        have hpos := retryGo_attempts_pos outcomes mr (a + 1) m
        obtain ⟨j, hj⟩ : ∃ j, (retryGo outcomes mr (a + 1) (m + 1)).attempts = j + 1 :=
          ⟨(retryGo outcomes mr (a + 1) (m + 1)).attempts - 1, by omega⟩
        dsimp only
        refine ⟨by omega, ?_, ?_⟩
        · rw [hj, hrest.2.1, hj]
          simp only [Nat.add_sub_cancel, List.range_succ_eq_map, List.map_cons,
            List.map_map]
          have hfun : ((fun k => 2 ^ (a + k) * 500) ∘ Nat.succ) =
              fun k => 2 ^ (a + 1 + k) * 500 := by
            funext k
            have hik : a + Nat.succ k = a + 1 + k := by omega
            simp [Function.comp, hik]
          rw [hfun]
          norm_num
        · intro k hk
          cases k with
          | zero =>
            refine ⟨e, ?_, hrc⟩
            rw [Nat.add_zero]
            exact houtcome
          | succ k2 =>
            obtain ⟨e2, he2, hr2⟩ := hrest.2.2 k2 (by omega)
            refine ⟨e2, ?_, hr2⟩
            rw [show a + (k2 + 1) = (a + 1) + k2 by omega]
            exact he2
      · rw [if_neg hc]
        refine ⟨by simp, by simp, ?_⟩
        intro k hk
        simp at hk

/-- C5 counterexample: when every attempt is rate-limited, the invoker makes
3 attempts and waits 500 ms and 1000 ms; the claimed third delay of 2000 ms
never occurs, because after the third (final) failed attempt the error is
rethrown without a wait. -/
theorem retry_delay_sequence_counterexample :
    (callOpenAIWithRetry allRateLimited 3).attempts = 3
    ∧ (callOpenAIWithRetry allRateLimited 3).delays = [500, 1000]
    ∧ (callOpenAIWithRetry allRateLimited 3).delays ≠ [500, 1000, 2000]
    ∧ (callOpenAIWithRetry allRateLimited 3).result =
        some (Except.error rateLimitedError) :=
  ⟨rfl, rfl, by decide, rfl⟩

/-- C5 amended: the invoker makes at most 3 attempts, retries only after
rate-limited failures, waits 500 times 2 to-the-k ms before the retry that
follows failed attempt k, realizing at most the two delays 0.5 s and 1 s,
and aborts immediately with one attempt and no delay on any non-rate-limited
failure. -/
theorem retry_policy (outcomes : ℕ → Except ApiError ParsedResponse) :
    (callOpenAIWithRetry outcomes 3).attempts ≤ 3
    ∧ (callOpenAIWithRetry outcomes 3).delays =
        (List.range ((callOpenAIWithRetry outcomes 3).attempts - 1)).map
          (fun k => 2 ^ k * 500)
    ∧ (callOpenAIWithRetry outcomes 3).delays.length ≤ 2
    ∧ (∀ k, k + 1 < (callOpenAIWithRetry outcomes 3).attempts →
        ∃ e, outcomes k = Except.error e ∧ retryIsRateLimit e = true)
    ∧ ∀ e, outcomes 0 = Except.error e → retryIsRateLimit e = false →
        callOpenAIWithRetry outcomes 3 = ⟨some (Except.error e), 1, []⟩ := by
  simp only [callOpenAIWithRetry]
  have h := retryGo_main outcomes 3 3 0 (by omega)
  refine ⟨h.1, by simpa using h.2.1, ?_, ?_, ?_⟩
  · have hlen : (retryGo outcomes 3 0 3).delays.length =
        (retryGo outcomes 3 0 3).attempts - 1 := by
      rw [h.2.1]
      simp
    have ha := h.1
    omega
  · intro k hk
    simpa using h.2.2 k hk
  · intro e he hr
    show retryGo outcomes 3 0 (2 + 1) = _
    exact retryGo_abort outcomes 3 0 2 e he hr

/-- C5 witness: the amended policy at concrete outcome sequences, with the
abort hypotheses discharged at an authentication failure. -/
theorem retry_policy_check :
    (callOpenAIWithRetry allRateLimited 3).attempts ≤ 3
    ∧ (callOpenAIWithRetry allRateLimited 3).delays =
        (List.range ((callOpenAIWithRetry allRateLimited 3).attempts - 1)).map
          (fun k => 2 ^ k * 500)
    ∧ callOpenAIWithRetry allAuthFailed 3 = ⟨some (Except.error authError), 1, []⟩ :=
  ⟨(retry_policy allRateLimited).1, (retry_policy allRateLimited).2.1,
   (retry_policy allAuthFailed).2.2.2.2 authError rfl (by decide)⟩

/-! ## Rate limiter lemmas -/

/-- At or above the cap the check refuses and leaves the store untouched. -/
theorem isRateLimited_at_cap (s : RLStore) (ip : String) (t : ℕ) (c : ℕ)
    (hc : s (ip, hourStartOf t) = some c) (hcap : MAX_REQUESTS_PER_HOUR ≤ c) :
    isRateLimited s ip t = (true, s) := by
  simp [isRateLimited, hc, hcap]

/-- Below the cap the check passes and increments the counter. -/
theorem isRateLimited_pass_some (s : RLStore) (ip : String) (t : ℕ) (c : ℕ)
    (hc : s (ip, hourStartOf t) = some c) (hlt : c < MAX_REQUESTS_PER_HOUR) :
    isRateLimited s ip t = (false, setRL s (ip, hourStartOf t) (c + 1)) := by
  simp [isRateLimited, hc]
  exact hlt

/-- On a missing document the check passes and writes count 1. -/
theorem isRateLimited_pass_none (s : RLStore) (ip : String) (t : ℕ)
    (hc : s (ip, hourStartOf t) = none) :
    isRateLimited s ip t = (false, setRL s (ip, hourStartOf t) (0 + 1)) := by
  simp [isRateLimited, hc]

/-- Reading the written key back. -/
theorem setRL_self (s : RLStore) (k : String × ℕ) (c : ℕ) : setRL s k c k = some c := by
  simp [setRL]

/-- Reading another key back. -/
theorem setRL_other (s : RLStore) (k k2 : String × ℕ) (c : ℕ) (h : k2 ≠ k) :
    setRL s k c k2 = s k2 := by
  simp [setRL, h]

/-- Requests distribute over list append. -/
theorem runRequests_append (ip : String) (l1 l2 : List ℕ) (s : RLStore) :
    runRequests ip (l1 ++ l2) s =
      ((runRequests ip l1 s).1 ++ (runRequests ip l2 (runRequests ip l1 s).2).1,
       (runRequests ip l2 (runRequests ip l1 s).2).2) := by
  induction l1 generalizing s with
  | nil => simp [runRequests]
  | cons t ts ih => simp [runRequests, ih]

/-- Running requests inside one hour window while under the cap: every
request passes, each one increments the per-client counter by exactly one,
and no other key of the store changes. -/
theorem runRequests_window (ip : String) (w : ℕ) :
    ∀ ts : List ℕ, (∀ t ∈ ts, hourStartOf t = w) →
      ∀ (s : RLStore) (c : ℕ),
        (s (ip, w) = some c ∨ (c = 0 ∧ s (ip, w) = none)) →
        c + ts.length ≤ MAX_REQUESTS_PER_HOUR →
        (runRequests ip ts s).1 = List.replicate ts.length false
        ∧ ((runRequests ip ts s).2 (ip, w) = some (c + ts.length)
            ∨ (c + ts.length = 0 ∧ (runRequests ip ts s).2 (ip, w) = none))
        ∧ ∀ k, k ≠ (ip, w) → (runRequests ip ts s).2 k = s k := by
  intro ts
  induction ts with
  | nil =>
    intro hw s c hs hcap
    exact ⟨rfl, by simpa using hs, fun k hk => rfl⟩
  | cons t ts ih =>
    intro hw s c hs hcap
    have hwt : hourStartOf t = w := hw t (by simp)
    have hlim : isRateLimited s ip t = (false, setRL s (ip, w) (c + 1)) := by
      cases hs with
      | inl h =>
        rw [← hwt] at h ⊢
        exact isRateLimited_pass_some s ip t c h
          (by simp only [List.length_cons, MAX_REQUESTS_PER_HOUR] at hcap ⊢; omega)
      | inr h =>
        rw [h.1]
        rw [← hwt] at h ⊢
        exact isRateLimited_pass_none s ip t h.2
    have hstep : setRL s (ip, w) (c + 1) (ip, w) = some (c + 1) := setRL_self _ _ _
    have hrest := ih (fun u hu => hw u (by simp [hu])) (setRL s (ip, w) (c + 1)) (c + 1)
      (Or.inl hstep)
      (by simp only [List.length_cons, MAX_REQUESTS_PER_HOUR] at hcap ⊢; omega)
    refine ⟨?_, ?_, ?_⟩
    · simp only [runRequests, hlim, List.length_cons, List.replicate_succ]
      rw [hrest.1]
    · simp only [runRequests, hlim]
      rcases hrest.2.1 with h | h
      · left
        rw [h]
        simp only [List.length_cons]
        congr 1
        omega
      · omega
    · intro k hk
      simp only [runRequests, hlim]
      rw [hrest.2.2 k hk, setRL_other s _ k (c + 1) hk]

/-- C6: starting from an empty counter store, eleven requests of one client
inside one clock-hour window pass ten times and are refused the eleventh
time; each passing request increments the per-client counter by one; the
counter of the window reads 10 afterwards; a request in any other hour window
still passes; and a full handler request at the capped window is answered
429 for every possible call outcome. -/
theorem hourly_rate_limit (ip : String) (w : ℕ) (ts : List ℕ)
    (hlen : ts.length = 11) (hw : ∀ t ∈ ts, hourStartOf t = w) :
    (runRequests ip ts emptyRL).1 = List.replicate 10 false ++ [true]
    ∧ (runRequests ip ts emptyRL).2 (ip, w) = some 10
    ∧ (∀ n, 1 ≤ n → n ≤ 10 →
        (runRequests ip (ts.take n) emptyRL).2 (ip, w) = some n)
    ∧ (∀ t2, hourStartOf t2 ≠ w →
        (isRateLimited (runRequests ip ts emptyRL).2 ip t2).1 = false)
    ∧ ∀ (g : GStore) (monthKey method apiKey : String) (req : SummaryRequest)
        (cr : Except ApiError ParsedResponse) (t11 : ℕ), hourStartOf t11 = w →
        (generateBookSummary (runRequests ip ts emptyRL).2 g ip t11 monthKey method
          apiKey req cr).1 =
          ⟨429, RespBody.errBody "Rate limit exceeded. Please try again later." none⟩ := by
  have hne : ts ≠ [] := by
    intro h
    rw [h] at hlen
    simp at hlen
  have hsplit : ts.dropLast ++ [ts.getLast hne] = ts := List.dropLast_append_getLast hne
  have hlen10 : ts.dropLast.length = 10 := by
    rw [List.length_dropLast, hlen]
  have hw10 : ∀ t ∈ ts.dropLast, hourStartOf t = w := fun t ht =>
    hw t (by rw [← hsplit]; exact List.mem_append_left _ ht)
  have hwtl : hourStartOf (ts.getLast hne) = w := hw _ (List.getLast_mem hne)
  have h10 := runRequests_window ip w ts.dropLast hw10 emptyRL 0 (Or.inr ⟨rfl, rfl⟩)
    (by rw [hlen10]; norm_num [MAX_REQUESTS_PER_HOUR])
  have hs10 : (runRequests ip ts.dropLast emptyRL).2 (ip, w) = some 10 := by
    rcases h10.2.1 with h | h
    · rw [hlen10] at h
      simpa using h
    · rw [hlen10] at h
      exact absurd h.1 (by norm_num)
  have hlast : isRateLimited (runRequests ip ts.dropLast emptyRL).2 ip (ts.getLast hne) =
      (true, (runRequests ip ts.dropLast emptyRL).2) :=
    isRateLimited_at_cap _ ip _ 10 (by rw [hwtl]; exact hs10)
      (by norm_num [MAX_REQUESTS_PER_HOUR])
  have hrun : runRequests ip ts emptyRL =
      (List.replicate 10 false ++ [true], (runRequests ip ts.dropLast emptyRL).2) := by
    rw [← hsplit, runRequests_append]
    simp [runRequests, hlast, h10.1, hlen10]
  refine ⟨by rw [hrun], by rw [hrun]; exact hs10, ?_, ?_, ?_⟩
  · intro n h1 h10n
    have htk : ∀ t ∈ ts.take n, hourStartOf t = w := fun t ht =>
      hw t (List.mem_of_mem_take ht)
    have hlentk : (ts.take n).length = n := by
      rw [List.length_take, hlen]
      omega
    have h := runRequests_window ip w (ts.take n) htk emptyRL 0 (Or.inr ⟨rfl, rfl⟩)
      (by rw [hlentk]; simpa [MAX_REQUESTS_PER_HOUR] using h10n)
    rcases h.2.1 with h2 | h2
    · rw [hlentk] at h2
      simpa using h2
    · rw [hlentk] at h2
      omega
  · intro t2 ht2
    have hkey : ((ip, hourStartOf t2) : String × ℕ) ≠ (ip, w) := fun hcontra =>
      ht2 (congrArg Prod.snd hcontra)
    have hval : (runRequests ip ts emptyRL).2 (ip, hourStartOf t2) = none := by
      rw [hrun]
      rw [h10.2.2 _ hkey]
      rfl
    rw [isRateLimited_pass_none _ ip t2 hval]
  · intro g monthKey method apiKey req cr t11 ht11
    have hlim2 : isRateLimited (runRequests ip ts emptyRL).2 ip t11 =
        (true, (runRequests ip ts emptyRL).2) := by
      rw [hrun]
      exact isRateLimited_at_cap _ ip _ 10 (by rw [ht11]; exact hs10)
        (by norm_num [MAX_REQUESTS_PER_HOUR])
    simp [generateBookSummary, hlim2]

/-- C6 witness: eleven immediate requests of one client at the epoch. -/
theorem hourly_rate_limit_check :
    (runRequests "1.2.3.4" (List.replicate 11 0) emptyRL).1 =
      List.replicate 10 false ++ [true]
    ∧ (runRequests "1.2.3.4" (List.replicate 11 0) emptyRL).2 ("1.2.3.4", 0) = some 10
    ∧ (runRequests "1.2.3.4" ((List.replicate 11 0).take 10) emptyRL).2
        ("1.2.3.4", 0) = some 10
    ∧ (isRateLimited (runRequests "1.2.3.4" (List.replicate 11 0) emptyRL).2
        "1.2.3.4" 3600000).1 = false := by
  have h := hourly_rate_limit "1.2.3.4" 0 (List.replicate 11 0) (by simp)
    (by intro t ht; rw [List.eq_of_mem_replicate ht]; rfl)
  exact ⟨h.1, h.2.1, h.2.2.1 10 (by norm_num) (by norm_num),
    h.2.2.2.1 3600000 (by decide)⟩

/-- C10: a request arriving while the hourly counter of the client is at the cap
is refused with 429, the hourly counter store is left exactly as it was, the
global monthly store is left exactly as it was, and neither the response nor
the final global store depends on the global store at all, so a rate-limited
request consumes no monthly quota. -/
theorem rate_limited_request_frame (rl : RLStore) (g : GStore) (ip : String)
    (now : ℕ) (monthKey method apiKey : String) (req : SummaryRequest)
    (cr : Except ApiError ParsedResponse) (c : ℕ)
    (hc : rl (ip, hourStartOf now) = some c) (hcap : MAX_REQUESTS_PER_HOUR ≤ c) :
    (generateBookSummary rl g ip now monthKey method apiKey req cr).1 =
      ⟨429, RespBody.errBody "Rate limit exceeded. Please try again later." none⟩
    ∧ (generateBookSummary rl g ip now monthKey method apiKey req cr).2.1 = rl
    ∧ (generateBookSummary rl g ip now monthKey method apiKey req cr).2.2 = g
    ∧ ∀ g2 : GStore,
        (generateBookSummary rl g2 ip now monthKey method apiKey req cr).1 =
          (generateBookSummary rl g ip now monthKey method apiKey req cr).1
        ∧ (generateBookSummary rl g2 ip now monthKey method apiKey req cr).2.2 = g2 := by
  have hrl := isRateLimited_at_cap rl ip now c hc hcap
  refine ⟨by simp [generateBookSummary, hrl], by simp [generateBookSummary, hrl],
    by simp [generateBookSummary, hrl], ?_⟩
  intro g2
  exact ⟨by simp [generateBookSummary, hrl], by simp [generateBookSummary, hrl]⟩

/-- C10 witness: a capped store at a concrete client and hour. -/
theorem rate_limited_request_frame_check :
    (generateBookSummary cappedRL emptyG "client" 0 "2026-10" "POST" "key"
        sampleRequest (Except.error unknownError)).1 =
      ⟨429, RespBody.errBody "Rate limit exceeded. Please try again later." none⟩
    ∧ (generateBookSummary cappedRL emptyG "client" 0 "2026-10" "POST" "key"
        sampleRequest (Except.error unknownError)).2.1 = cappedRL
    ∧ (generateBookSummary cappedRL emptyG "client" 0 "2026-10" "POST" "key"
        sampleRequest (Except.error unknownError)).2.2 = emptyG := by
  have h := rate_limited_request_frame cappedRL emptyG "client" 0 "2026-10" "POST"
    "key" sampleRequest (Except.error unknownError) 10 (by decide) (by decide)
  exact ⟨h.1, h.2.1, h.2.2.1⟩

/-- C8 counterexample: for limits below 3 the truncated output is the
three-character ellipsis, which exceeds the limit: at s = abcd and L = 2 the
output has length 3. -/
theorem truncate_limit_counterexample :
    ensureCharacterLimit "abcd" 2 = "..."
    ∧ (ensureCharacterLimit "abcd" 2).length = 3
    ∧ ¬((ensureCharacterLimit "abcd" 2).length ≤ 2) := by
  refine ⟨?_, ?_, ?_⟩ <;> decide

/-- C8 amended: truncation is idempotent for every string and every limit,
returns its input unchanged whenever the input fits, and its output never
exceeds the limit whenever the limit is at least 3 (for smaller limits a
longer input yields the three-character ellipsis). -/
theorem truncate_idempotent_amended (s : String) (L : ℕ) :
    ensureCharacterLimit (ensureCharacterLimit s L) L = ensureCharacterLimit s L
    ∧ (s.length ≤ L → ensureCharacterLimit s L = s)
    ∧ (3 ≤ L → (ensureCharacterLimit s L).length ≤ L) :=
  ⟨ensureCharacterLimit_idem s L,
   fun h => ensureCharacterLimit_short s L h,
   fun h => ensureCharacterLimit_length_le s L h⟩

/-- C8 witness: the amended statement at concrete strings and limits. -/
theorem truncate_idempotent_amended_check :
    ensureCharacterLimit (ensureCharacterLimit "ab" 5) 5 = ensureCharacterLimit "ab" 5
    ∧ ensureCharacterLimit "ab" 5 = "ab"
    ∧ (ensureCharacterLimit "ab" 5).length ≤ 5 :=
  ⟨(truncate_idempotent_amended "ab" 5).1,
   (truncate_idempotent_amended "ab" 5).2.1 (by decide),
   (truncate_idempotent_amended "ab" 5).2.2 (by decide)⟩

/-- C9: the language guard leaves English targets untouched in both the
cloud cleaner and the client validator; for the targets es, de, pt and it the
cloud cleaner is exactly the ordered fold of its whole-word case-insensitive
substitution table; and for every non-English target the client validator
applies all phrase-pattern substitutions before all single-word-pattern
substitutions on both summaries. -/
theorem language_guard_passes :
    (∀ t : String, cleanMixedLanguageText t "en" = t)
    ∧ (∀ (tabs : LanguageTables) (s d : String),
        validateAndCleanSummaryLanguage tabs "en" s d = (s, d))
    ∧ (∀ t : String,
        cleanMixedLanguageText t "es" = applyCleanRules esCleanRules t
        ∧ cleanMixedLanguageText t "de" = applyCleanRules deCleanRules t
        ∧ cleanMixedLanguageText t "pt" = applyCleanRules ptCleanRules t
        ∧ cleanMixedLanguageText t "it" = applyCleanRules itCleanRules t)
    ∧ ∀ (tabs : LanguageTables) (lang s d : String), lang ≠ "en" →
        validateAndCleanSummaryLanguage tabs lang s d =
          (applyForbiddenPass tabs.forbiddenWords (tabs.replacements lang)
            (applyCleanRules (tabs.wordPatterns lang)
              (applyPhraseRules (tabs.phrasePatterns lang) s)),
           applyForbiddenPass tabs.forbiddenWords (tabs.replacements lang)
            (applyCleanRules (tabs.wordPatterns lang)
              (applyPhraseRules (tabs.phrasePatterns lang) d))) := by
  refine ⟨fun t => rfl, fun tabs s d => rfl, fun t => ⟨rfl, rfl, rfl, rfl⟩, ?_⟩
  intro tabs lang s d h
  unfold validateAndCleanSummaryLanguage
  rw [if_neg (by simpa using h)]

/-- C9 witness: the guard at a Spanish target with concrete tables and text. -/
theorem language_guard_passes_check :
    cleanMixedLanguageText "A History of art" "en" = "A History of art"
    ∧ validateAndCleanSummaryLanguage emptyTables "es" "hola" "mundo" =
        (applyForbiddenPass emptyTables.forbiddenWords (emptyTables.replacements "es")
          (applyCleanRules (emptyTables.wordPatterns "es")
            (applyPhraseRules (emptyTables.phrasePatterns "es") "hola")),
         applyForbiddenPass emptyTables.forbiddenWords (emptyTables.replacements "es")
          (applyCleanRules (emptyTables.wordPatterns "es")
            (applyPhraseRules (emptyTables.phrasePatterns "es") "mundo"))) :=
  ⟨language_guard_passes.1 "A History of art",
   language_guard_passes.2.2.2 emptyTables "es" "hola" "mundo" (by decide)⟩

end SmartLibro
